import Mathlib

/-!
# GDB native ptrace back end (`gdb/inf-ptrace.c`, `gdb/sh-linux-nat.c`)

A shallow embedding of the ptrace-based inferior-control target and of the
SuperH GNU/Linux register transfer code, followed by theorems about them.

Conventions of the embedding:

* `ULONGEST` values are naturals below `2 ^ 64`; every `ULONGEST` operation is
  reduced modulo `2 ^ 64` explicitly.
* C `int` values are integers; where a product is formed in `int`, or a `long`
  is assigned to an `int` or a `pid_t`, the value is wrapped to 32 bits by
  `wrap_int`.
* The kernel is not part of the program.  Its answers are parameters of the
  embedded functions (a `Tracee`, a `UserArea`, a list of wait events, ...),
  and every request the program sends to it is recorded in a log that the
  function returns.
* Conditional compilation (`#ifdef PT_IO` and friends) is a `Config` record.
-/

namespace GdbNat

/-! ## Machine integers -/

/-- The modulus of `ULONGEST` arithmetic. -/
def ULONGEST_MOD : Nat := 2 ^ 64

/-- Conversion of a mathematical integer to a 32-bit C `int`. -/
def wrap_int (x : Int) : Int := (x + 2 ^ 31) % 2 ^ 32 - 2 ^ 31

/-! ## `inf_ptrace_target::auxv_parse` -/

/-- What `auxv_parse` leaves behind: the return code, the value of `*readptr`
on return and the two out-parameters (`none` when they were not assigned). -/
structure AuxvResult where
  ret : Int
  readptr : Nat
  typep : Option Nat
  valp : Option Nat
  deriving DecidableEq, Repr

/-- `inf_ptrace_target::auxv_parse` (inf-ptrace.c:638-662).

`type_length_int` and `type_length_ptr` are `TYPE_LENGTH (int_type)` and
`TYPE_LENGTH (ptr_type)` of the target architecture; `extract_unsigned_integer
addr len` is gdb's decoder applied to the `len` bytes at `addr` in the byte
order of the target (it is not part of this file's sources, so it is a
parameter).  Pointers are addresses; `endptr - ptr` is a signed difference. -/
def auxv_parse (type_length_int type_length_ptr : Nat)
    (extract_unsigned_integer : Nat → Int → Nat)
    (readptr endptr : Nat) : AuxvResult :=
  let sizeof_auxv_type : Int := wrap_int type_length_int
  let sizeof_auxv_val : Int := wrap_int type_length_ptr
  let ptr : Int := readptr
  if (endptr : Int) = ptr then
    { ret := 0, readptr := readptr, typep := none, valp := none }
  else if (endptr : Int) - ptr < wrap_int (2 * sizeof_auxv_val) then
    { ret := -1, readptr := readptr, typep := none, valp := none }
  else
    let typep := extract_unsigned_integer ptr.toNat sizeof_auxv_type
    let ptr := ptr + sizeof_auxv_val
    let valp := extract_unsigned_integer ptr.toNat sizeof_auxv_val
    let ptr := ptr + sizeof_auxv_val
    { ret := 1, readptr := ptr.toNat, typep := some typep, valp := some valp }

/-! ## Process identities -/

/-- Modelled from the spec: the composite identity `ptid_t` of gdb's common
code (ProcessIdentity: a process id and an optional lightweight-thread id,
zero meaning absent); `tid` is the third component gdb carries along.  In gdb
`pid` is an `int` while `lwp` and `tid` are `long`. -/
structure ptid_t where
  pid : Int
  lwp : Int
  tid : Int
  deriving DecidableEq, Repr

def null_ptid : ptid_t := ⟨0, 0, 0⟩

def minus_one_ptid : ptid_t := ⟨-1, 0, 0⟩

def pid_to_ptid (pid : Int) : ptid_t := ⟨pid, 0, 0⟩

def ptid_get_pid (ptid : ptid_t) : Int := ptid.pid

def ptid_get_lwp (ptid : ptid_t) : Int := ptid.lwp

def ptid_equal (a b : ptid_t) : Bool := decide (a = b)

/-- `get_ptrace_pid` (inf-ptrace.c:310-321).  The local `pid` is a `pid_t`, a
32-bit `int`: the assignment `pid = ptid_get_lwp (ptid)` narrows the `long`
it is given, and the test for zero is made on the narrowed value. -/
def get_ptrace_pid (ptid : ptid_t) : Int :=
  let pid := wrap_int (ptid_get_lwp ptid)
  if pid = 0 then ptid_get_pid ptid else pid

/-! ## Errors, configuration and the kernel log -/

/-- The three ways gdb leaves a function abnormally. -/
inductive GdbError where
  | error (msg : String)
  | perror_with_name (what : String) (errno : Int)
  | internal_error (msg : String)
  deriving DecidableEq, Repr

/-- The feature macros the two files test with `#ifdef`. -/
structure Config where
  PT_GET_PROCESS_STATE_defined : Bool
  PT_ATTACH_defined : Bool
  PT_DETACH_defined : Bool
  PT_IO_defined : Bool
  PIOD_READ_AUXV_defined : Bool
  /-- The value of `sizeof (PTRACE_TYPE_RET)`. -/
  sizeof_PTRACE_TYPE_RET : Nat
  deriving DecidableEq, Repr

/-- Request codes passed to `ptrace`. -/
inductive PtraceRequest where
  | PT_TRACE_ME | PT_ATTACH | PT_DETACH | PT_KILL
  | PT_CONTINUE | PT_STEP | PT_SYSCALL
  | PT_READ_I | PT_WRITE_D | PT_WRITE_I
  | PT_GET_PROCESS_STATE | PT_SET_EVENT_MASK
  | PTRACE_PEEKUSER | PTRACE_POKEUSER
  deriving DecidableEq, Repr

/-- Operation codes of a `struct ptrace_io_desc`. -/
inductive PiodOp where
  | PIOD_READ_D | PIOD_WRITE_I | PIOD_READ_AUXV
  deriving DecidableEq, Repr

/-- One system call made by the program, with its arguments. -/
inductive KernelCall where
  /-- A `ptrace (request, pid, addr, data)` whose `data` is a number. -/
  | ptrace (request : PtraceRequest) (pid : Int) (addr : Nat) (data : Int)
  /-- A `ptrace (request, pid, addr, buffer.word)`; the word is given by its bytes. -/
  | ptrace_word (request : PtraceRequest) (pid : Int) (addr : Nat) (word : List Nat)
  /-- A `ptrace (PT_IO, pid, &piod, 0)` with the fields of `piod`. -/
  | ptrace_io (pid : Int) (op : PiodOp) (offs : Nat) (len : Nat)
  | waitpid (pid : Int)
  deriving DecidableEq, Repr

/-! ## `inf_ptrace_target::resume` -/

/-- What `resume` did: the system calls it made and the error it raised, if any. -/
structure ResumeResult where
  log : List KernelCall
  error : Option GdbError
  deriving DecidableEq, Repr

/-- `inf_ptrace_target::resume` (inf-ptrace.c:327-362).

`catch_syscall_enabled` is the value returned by `catch_syscall_enabled ()`,
`host_signal` the value of `gdb_signal_to_host (signal)` and `kernel_errno`
the value of `errno` after the `ptrace` call. -/
def resume (inferior_ptid : ptid_t) (catch_syscall_enabled : Int) (kernel_errno : Int)
    (ptid : ptid_t) (step : Int) (host_signal : Int) : ResumeResult :=
  let pid : Int :=
    if ptid_equal minus_one_ptid ptid then ptid_get_pid inferior_ptid
    else get_ptrace_pid ptid
  let request : PtraceRequest :=
    if catch_syscall_enabled > 0 then PtraceRequest.PT_SYSCALL
    else PtraceRequest.PT_CONTINUE
  let request : PtraceRequest :=
    if step ≠ 0 then PtraceRequest.PT_STEP else request
  let log := [KernelCall.ptrace request pid 1 host_signal]
  if kernel_errno ≠ 0 then
    { log := log, error := some (GdbError.perror_with_name "ptrace" kernel_errno) }
  else
    { log := log, error := none }

/-! ## The inferior registry: `attach` and `detach` -/

/-- Modelled from the spec: the InferiorRecord of the current inferior
(`struct inferior`, declared in inferior.h): its process id and whether it
was attached to rather than launched. -/
structure inferior where
  pid : Int
  attach_flag : Int
  deriving DecidableEq, Repr

/-- The process-wide state `attach` and `detach` read and write. -/
structure Registry where
  /-- Whether this target is on the target stack (`target_is_pushed (this)`). -/
  target_pushed : Bool
  current_inferior : inferior
  inferior_ptid : ptid_t
  /-- The threads registered with `add_thread_silent`. -/
  thread_list : List ptid_t
  deriving DecidableEq, Repr

/-- What a registry operation did. -/
structure RegistryResult where
  registry : Registry
  log : List KernelCall
  stdout : List String
  error : Option GdbError
  deriving DecidableEq, Repr

/-- Modelled from the spec: `inferior_appeared (inf, pid)` of inferior.c
records the process id in the inferior. -/
def inferior_appeared (inf : inferior) (pid : Int) : inferior :=
  { inf with pid := pid }

/-- Raising an error runs the pending cleanups: the only one that does
anything is the `make_cleanup_unpush_target` installed when the target was
pushed by this call. -/
def run_cleanups (unpush_pending : Bool) (r : Registry) : Registry :=
  if unpush_pending then { r with target_pushed := false } else r

/-- `inf_ptrace_target::attach` (inf-ptrace.c:158-216).

`getpid` is the debugger's own process id, `pid` the value returned by
`parse_pid_to_attach (args)`, `exec_file` the value of `get_exec_file (0)`
and `kernel_errno` the value of `errno` after the `PT_ATTACH` request.
`target_pid_to_str` is a parameter. -/
def attach (cfg : Config) (getpid : Int) (exec_file : Option String)
    (target_pid_to_str : ptid_t → String) (kernel_errno : Int)
    (r : Registry) (pid : Int) (from_tty : Int) : RegistryResult :=
  let ops_already_pushed := r.target_pushed
  if pid = getpid then
    { registry := run_cleanups false r, log := [], stdout := [],
      error := some (GdbError.error "I refuse to debug myself!") }
  else
    let r1 : Registry := if !ops_already_pushed then { r with target_pushed := true } else r
    let unpush_pending := !ops_already_pushed
    let stdout : List String :=
      if from_tty ≠ 0 then
        match exec_file with
        | some f => ["Attaching to program: " ++ f ++ ", "
                      ++ target_pid_to_str (pid_to_ptid pid) ++ "\n"]
        | none => ["Attaching to " ++ target_pid_to_str (pid_to_ptid pid) ++ "\n"]
      else []
    if cfg.PT_ATTACH_defined then
      let log := [KernelCall.ptrace PtraceRequest.PT_ATTACH pid 0 0]
      if kernel_errno ≠ 0 then
        { registry := run_cleanups unpush_pending r1, log := log, stdout := stdout,
          error := some (GdbError.perror_with_name "ptrace" kernel_errno) }
      else
        let inf := inferior_appeared r1.current_inferior pid
        let inf := { inf with attach_flag := 1 }
        let inferior_ptid := pid_to_ptid pid
        { registry := { r1 with current_inferior := inf, inferior_ptid := inferior_ptid,
                                thread_list := r1.thread_list ++ [inferior_ptid] },
          log := log, stdout := stdout, error := none }
    else
      { registry := run_cleanups unpush_pending r1, log := [], stdout := stdout,
        error := some (GdbError.error "This system does not support attaching to a process") }

/-- Modelled from the spec: `detach_inferior (pid)` of inferior.c unregisters
the identity from active tracking: the threads of the process go and the
inferior no longer has a process. -/
def detach_inferior (r : Registry) (pid : Int) : Registry :=
  { r with
    thread_list := r.thread_list.filter (fun t => decide (ptid_get_pid t ≠ pid)),
    current_inferior :=
      if r.current_inferior.pid = pid then { r.current_inferior with pid := 0 }
      else r.current_inferior }

/-- Modelled from the spec: `maybe_unpush_target ()` of inf-child.c unlinks the
target from the dispatch stack if no inferior remains. -/
def maybe_unpush_target (r : Registry) : Registry :=
  if r.current_inferior.pid = 0 then { r with target_pushed := false } else r

/-- `inf_ptrace_target::detach_success` (inf-ptrace.c:266-275). -/
def detach_success (r : Registry) : Registry :=
  let pid := ptid_get_pid r.inferior_ptid
  let r := { r with inferior_ptid := null_ptid }
  let r := detach_inferior r pid
  maybe_unpush_target r

/-- `inf_ptrace_target::detach` (inf-ptrace.c:238-262).

`args` is the value of `atoi (args)` when `args` is not null;
`announce` is what `target_announce_detach (from_tty)` prints and
`kernel_errno` the value of `errno` after the `PT_DETACH` request. -/
def detach (cfg : Config) (announce : List String) (kernel_errno : Int)
    (r : Registry) (args : Option Int) : RegistryResult :=
  let pid := ptid_get_pid r.inferior_ptid
  let sig : Int := match args with
    | some n => n
    | none => 0
  if cfg.PT_DETACH_defined then
    let log := [KernelCall.ptrace PtraceRequest.PT_DETACH pid 1 sig]
    if kernel_errno ≠ 0 then
      { registry := r, log := log, stdout := announce,
        error := some (GdbError.perror_with_name "ptrace" kernel_errno) }
    else
      { registry := detach_success r, log := log, stdout := announce, error := none }
  else
    { registry := r, log := [], stdout := announce,
      error := some (GdbError.error "This system does not support detaching from a process") }

/-! ## `inf_ptrace_target::wait` -/

/-- Modelled from the spec: the decoded content of the `status` word that
`waitpid` fills in (the `WIFEXITED`, `WIFSIGNALED` and `WIFSTOPPED` cases of
gdb_wait.h). -/
inductive HostStatus where
  | exited (code : Int)
  | signaled (sig : Int)
  | stopped (sig : Int)
  deriving DecidableEq, Repr

def WIFSTOPPED : HostStatus → Bool
  | HostStatus.stopped _ => true
  | _ => false

/-- A signal as gdb names it: a host signal number, or `GDB_SIGNAL_UNKNOWN`. -/
inductive gdb_signal where
  | from_host (sig : Int)
  | GDB_SIGNAL_UNKNOWN
  deriving DecidableEq, Repr

inductive target_waitkind where
  | TARGET_WAITKIND_EXITED
  | TARGET_WAITKIND_STOPPED
  | TARGET_WAITKIND_SIGNALLED
  | TARGET_WAITKIND_FORKED
  | TARGET_WAITKIND_IGNORE
  deriving DecidableEq, Repr

/-- Modelled from the spec: `struct target_waitstatus` (WaitStatus); the
members of its `value` union are separate fields. -/
structure target_waitstatus where
  kind : target_waitkind
  integer : Int
  sig : gdb_signal
  related_pid : ptid_t
  deriving DecidableEq, Repr

/-- Modelled from the spec: `store_waitstatus` of target.c turns a host
status into Exited (code), Signalled (signal) or Stopped (signal). -/
def store_waitstatus (ourstatus : target_waitstatus) (status : HostStatus) :
    target_waitstatus :=
  match status with
  | HostStatus.exited code =>
      { ourstatus with kind := target_waitkind.TARGET_WAITKIND_EXITED, integer := code }
  | HostStatus.signaled sig =>
      { ourstatus with kind := target_waitkind.TARGET_WAITKIND_SIGNALLED,
                       sig := gdb_signal.from_host sig }
  | HostStatus.stopped sig =>
      { ourstatus with kind := target_waitkind.TARGET_WAITKIND_STOPPED,
                       sig := gdb_signal.from_host sig }

/-- The value of `EINTR`. -/
def EINTR : Int := 4

/-- One answer of the kernel to `waitpid`: `pid` is the child it reports when
the call was for any child, `-1` when the call fails (then `errno` is set). -/
structure WaitAnswer where
  pid : Int
  status : HostStatus
  errno : Int
  deriving DecidableEq, Repr

/-- The return value of `waitpid (pid, &status, 0)` given the kernel's answer:
`-1` on failure; a call for one process (`pid > 0`) that succeeds returns
that process; a call for any child returns the child the kernel reports. -/
def waitpid (a : WaitAnswer) (pid : Int) : Int :=
  if a.pid = -1 then -1 else if 0 < pid then pid else a.pid

/-- The event a stopped process reports through `PT_GET_PROCESS_STATE`. -/
inductive ptrace_event where
  | PTRACE_FORK
  | other (code : Int)
  deriving DecidableEq, Repr

/-- The members of `ptrace_state_t` the program reads. -/
structure ptrace_state_t where
  pe_report_event : ptrace_event
  pe_other_pid : Int
  deriving DecidableEq, Repr

/-- How `wait` ended. -/
inductive WaitOutcome where
  | returned (ptid : ptid_t) (ourstatus : target_waitstatus)
  | threw (e : GdbError)
  deriving DecidableEq, Repr

/-- What `wait` did: how it ended, the system calls it made and the kernel
answers it has not consumed. -/
structure WaitResult where
  outcome : WaitOutcome
  log : List KernelCall
  rest : List WaitAnswer
  deriving DecidableEq, Repr

/-- How the `do ... while (pid == -1)` loop of `wait` is left. -/
inductive WaitLoopExit where
  /-- The `pid == -1` branch: the child is missing; `errno` was saved. -/
  | missing (save_errno : Int)
  /-- The loop ended with a process and its status. -/
  | got (pid : Int) (status : HostStatus)
  deriving DecidableEq, Repr

/-- The loop of `inf_ptrace_target::wait` (inf-ptrace.c:375-404) over the
kernel's successive answers.  The result is `none` when the answers run out,
that is when `waitpid` blocks for ever. -/
def wait_loop (inferior_ptid ptid : ptid_t) :
    List WaitAnswer → List KernelCall → Option (WaitLoopExit × List WaitAnswer × List KernelCall)
  | [], _ => none
  | a :: rest, log =>
    let pid := waitpid a (ptid_get_pid ptid)
    let log := log ++ [KernelCall.waitpid (ptid_get_pid ptid)]
    if pid = -1 ∧ a.errno = EINTR then wait_loop inferior_ptid ptid rest log
    else if pid = -1 then some (WaitLoopExit.missing a.errno, rest, log)
    else if !WIFSTOPPED a.status ∧ pid ≠ ptid_get_pid inferior_ptid then
      wait_loop inferior_ptid ptid rest log
    else some (WaitLoopExit.got pid a.status, rest, log)

/-- The part of `inf_ptrace_target::wait` after the loop
(inf-ptrace.c:406-445).  `get_process_state n pid` is the kernel's answer to
the `n`-th `PT_GET_PROCESS_STATE` request of this call, made for `pid`
(`none` when the request fails, then with `errno`). -/
def wait_after (cfg : Config) (inferior_ptid : ptid_t)
    (get_process_state : Nat → Int → Option ptrace_state_t) (state_errno : Int)
    (ourstatus : target_waitstatus) (pid : Int) (status : HostStatus)
    (rest : List WaitAnswer) (log : List KernelCall) : Option WaitResult :=
  let plain : Option WaitResult :=
    some { outcome := WaitOutcome.returned (pid_to_ptid pid) (store_waitstatus ourstatus status),
           log := log, rest := rest }
  if cfg.PT_GET_PROCESS_STATE_defined ∧ WIFSTOPPED status then
    let log := log ++ [KernelCall.ptrace PtraceRequest.PT_GET_PROCESS_STATE pid 0 0]
    match get_process_state 0 pid with
    | none =>
      some { outcome := WaitOutcome.threw (GdbError.perror_with_name "ptrace" state_errno),
             log := log, rest := rest }
    | some pe =>
      match pe.pe_report_event with
      | ptrace_event.PTRACE_FORK =>
        let ourstatus := { ourstatus with kind := target_waitkind.TARGET_WAITKIND_FORKED,
                                          related_pid := pid_to_ptid pe.pe_other_pid }
        match rest with
        | [] => none
        | a :: rest =>
          let fpid := waitpid a pe.pe_other_pid
          let log := log ++ [KernelCall.waitpid pe.pe_other_pid]
          if fpid = -1 then
            some { outcome := WaitOutcome.threw (GdbError.perror_with_name "waitpid" a.errno),
                   log := log, rest := rest }
          else
            let log := log ++ [KernelCall.ptrace PtraceRequest.PT_GET_PROCESS_STATE fpid 0 0]
            match get_process_state 1 fpid with
            | none =>
              some { outcome := WaitOutcome.threw
                                  (GdbError.perror_with_name "ptrace" state_errno),
                     log := log, rest := rest }
            | some pe =>
              if pe.pe_report_event ≠ ptrace_event.PTRACE_FORK then
                some { outcome := WaitOutcome.threw (GdbError.internal_error
                                    "pe.pe_report_event == PTRACE_FORK"),
                       log := log, rest := rest }
              else if pe.pe_other_pid ≠ pid then
                some { outcome := WaitOutcome.threw (GdbError.internal_error
                                    "pe.pe_other_pid == pid"),
                       log := log, rest := rest }
              else if fpid = ptid_get_pid inferior_ptid then
                let ourstatus := { ourstatus with related_pid := pid_to_ptid pe.pe_other_pid }
                some { outcome := WaitOutcome.returned (pid_to_ptid fpid) ourstatus,
                       log := log, rest := rest }
              else
                some { outcome := WaitOutcome.returned (pid_to_ptid pid) ourstatus,
                       log := log, rest := rest }
      | ptrace_event.other _ => plain
  else plain

/-- `inf_ptrace_target::wait` (inf-ptrace.c:368-446).  `answers` are the
kernel's successive answers to `waitpid`; the result is `none` when they run
out before the function has returned. -/
def wait (cfg : Config) (inferior_ptid : ptid_t)
    (get_process_state : Nat → Int → Option ptrace_state_t) (state_errno : Int)
    (answers : List WaitAnswer)
    (ptid : ptid_t) (ourstatus : target_waitstatus) : Option WaitResult :=
  match wait_loop inferior_ptid ptid answers [] with
  | none => none
  | some (WaitLoopExit.missing _, rest, log) =>
    let ourstatus := { ourstatus with kind := target_waitkind.TARGET_WAITKIND_SIGNALLED,
                                      sig := gdb_signal.GDB_SIGNAL_UNKNOWN }
    some { outcome := WaitOutcome.returned inferior_ptid ourstatus, log := log, rest := rest }
  | some (WaitLoopExit.got pid status, rest, log) =>
    wait_after cfg inferior_ptid get_process_state state_errno ourstatus pid status rest log

/-! ## `inf_ptrace_target::xfer_partial` -/

inductive target_object where
  | TARGET_OBJECT_MEMORY
  | TARGET_OBJECT_UNWIND_TABLE
  | TARGET_OBJECT_AUXV
  | TARGET_OBJECT_WCOOKIE
  /-- Every other member of the enumeration. -/
  | TARGET_OBJECT_OTHER
  deriving DecidableEq, Repr

inductive target_xfer_status where
  | TARGET_XFER_OK
  | TARGET_XFER_EOF
  | TARGET_XFER_E_IO
  deriving DecidableEq, Repr

/-- The value of `EINVAL`. -/
def EINVAL : Int := 22

/-- The kernel's answer to a `PT_IO` request: success with the number of bytes
it moved (the new `piod_len`), or failure with `errno`. -/
inductive PtIoAnswer where
  | moved (piod_len : Nat)
  | failed (errno : Int)
  deriving DecidableEq, Repr

/-- The traced process as the memory requests see it: its memory, a byte per
address below `2 ^ 64`, and the kernel's verdict on each request (`errno`
after a one-word request at an address, zero meaning success). -/
structure Tracee where
  mem : Nat → Nat
  /-- The bytes of the auxiliary vector. -/
  auxv : Nat → Nat
  pt_io_answer : PiodOp → Nat → Nat → PtIoAnswer
  read_i_errno : Nat → Int
  write_d_errno : Nat → Int
  write_i_errno : Nat → Int

/-- The `n` bytes at `addr` in `mem`, as a function of the index. -/
def load_bytes (mem : Nat → Nat) (addr : Nat) : Nat → Nat :=
  fun i => mem ((addr + i) % ULONGEST_MOD)

/-- The memory `mem` after the `n` bytes `src 0 .. src (n - 1)` are stored at
`addr`. -/
def store_bytes (mem : Nat → Nat) (addr n : Nat) (src : Nat → Nat) : Nat → Nat :=
  fun a =>
    let i := (a % ULONGEST_MOD + ULONGEST_MOD - addr % ULONGEST_MOD) % ULONGEST_MOD
    if i < n then src i else mem a

/-- The C `memcpy (dst + at, src, n)` on byte arrays indexed from zero. -/
def memcpy (dst : Nat → Nat) (pos : Nat) (src : Nat → Nat) (n : Nat) : Nat → Nat :=
  fun i => if pos ≤ i ∧ i < pos + n then src (i - pos) else dst i

/-- The bytes of the `size`-byte word held in a `buffer` union. -/
def word_bytes (size : Nat) (buffer : Nat → Nat) : List Nat :=
  (List.range size).map buffer

/-- What `ptrace (PT_READ_I, pid, addr, 0)` returns, as the bytes of the word,
together with `errno`: the word of the tracee at `addr`, or `-1` (every byte
`0xff`) when the kernel refuses. -/
def ptrace_read_i (t : Tracee) (addr : Nat) : (Nat → Nat) × Int :=
  if t.read_i_errno addr = 0 then (load_bytes t.mem addr, 0)
  else (fun _ => 255, t.read_i_errno addr)

/-- What `xfer_partial` leaves behind. -/
structure XferResult where
  status : target_xfer_status
  /-- The value stored in `*xfered_len`, `none` when nothing was stored. -/
  xfered_len : Option Nat
  /-- The content of the caller's read buffer on return. -/
  readbuf : Option (Nat → Nat)
  /-- The memory of the tracee on return. -/
  mem : Nat → Nat
  log : List KernelCall

/-- The word-at-a-time block of `xfer_partial` (inf-ptrace.c:493-565).
`buffer` is the content of the uninitialised `buffer` union on entry. -/
def xfer_memory_word (cfg : Config) (pid : Int) (t : Tracee) (buffer : Nat → Nat)
    (readbuf writebuf : Option (Nat → Nat)) (offset len : Nat)
    (log : List KernelCall) : XferResult :=
  let size := cfg.sizeof_PTRACE_TYPE_RET
  let offset := offset % ULONGEST_MOD
  let len := len % ULONGEST_MOD
  let rounded_offset := offset &&& ((ULONGEST_MOD - size % ULONGEST_MOD) % ULONGEST_MOD)
  let partial_len := ((rounded_offset + size) % ULONGEST_MOD + ULONGEST_MOD - offset) % ULONGEST_MOD
  let partial_len := if partial_len > len then len else partial_len
  -- the index `offset - rounded_offset` into `buffer.byte`
  let pos := (offset + ULONGEST_MOD - rounded_offset % ULONGEST_MOD) % ULONGEST_MOD
  -- if (writebuf)
  let afterWrite : Option target_xfer_status × (Nat → Nat) × (Nat → Nat) × List KernelCall :=
    match writebuf with
    | none => (none, buffer, t.mem, log)
    | some wb =>
      let need_word : Bool :=
        decide (rounded_offset < offset)
          || decide ((offset + partial_len) % ULONGEST_MOD
                      < (rounded_offset + size) % ULONGEST_MOD)
      let buffer := if need_word then (ptrace_read_i t rounded_offset).1 else buffer
      let log := if need_word then
          log ++ [KernelCall.ptrace PtraceRequest.PT_READ_I pid rounded_offset 0]
        else log
      let buffer := memcpy buffer pos wb partial_len
      let log := log ++ [KernelCall.ptrace_word PtraceRequest.PT_WRITE_D pid rounded_offset
                          (word_bytes size buffer)]
      if t.write_d_errno rounded_offset ≠ 0 then
        let log := log ++ [KernelCall.ptrace_word PtraceRequest.PT_WRITE_I pid rounded_offset
                            (word_bytes size buffer)]
        if t.write_i_errno rounded_offset ≠ 0 then
          (some target_xfer_status.TARGET_XFER_EOF, buffer, t.mem, log)
        else (none, buffer, store_bytes t.mem rounded_offset size buffer, log)
      else (none, buffer, store_bytes t.mem rounded_offset size buffer, log)
  match afterWrite with
  | (some st, _, mem, log) =>
    { status := st, xfered_len := none, readbuf := readbuf, mem := mem, log := log }
  | (none, _, mem, log) =>
    -- if (readbuf)
    match readbuf with
    | none =>
      { status := target_xfer_status.TARGET_XFER_OK, xfered_len := some partial_len,
        readbuf := none, mem := mem, log := log }
    | some rb =>
      let rd := ptrace_read_i { t with mem := mem } rounded_offset
      let log := log ++ [KernelCall.ptrace PtraceRequest.PT_READ_I pid rounded_offset 0]
      if rd.2 ≠ 0 then
        { status := target_xfer_status.TARGET_XFER_EOF, xfered_len := none,
          readbuf := some rb, mem := mem, log := log }
      else
        { status := target_xfer_status.TARGET_XFER_OK, xfered_len := some partial_len,
          readbuf := some (memcpy rb 0 (fun i => rd.1 (pos + i)) partial_len),
          mem := mem, log := log }

open target_xfer_status in
/-- `inf_ptrace_target::xfer_partial` (inf-ptrace.c:450-602).  `buffer` is the
content of the uninitialised `buffer` union of the word-at-a-time block. -/
def xfer_partial (cfg : Config) (inferior_ptid : ptid_t) (t : Tracee) (buffer : Nat → Nat)
    (object : target_object) (readbuf writebuf : Option (Nat → Nat))
    (offset len : Nat) : XferResult :=
  let pid := ptid_get_pid inferior_ptid
  let failure : XferResult :=
    { status := TARGET_XFER_E_IO, xfered_len := none, readbuf := readbuf,
      mem := t.mem, log := [] }
  match object with
  | target_object.TARGET_OBJECT_MEMORY =>
    if cfg.PT_IO_defined then
      let piod_op := if writebuf.isSome then PiodOp.PIOD_WRITE_I else PiodOp.PIOD_READ_D
      let piod_offs := offset % ULONGEST_MOD
      let piod_len := len % ULONGEST_MOD
      let log := [KernelCall.ptrace_io pid piod_op piod_offs piod_len]
      match t.pt_io_answer piod_op piod_offs piod_len with
      | PtIoAnswer.moved piod_len =>
        { status := if piod_len = 0 then TARGET_XFER_EOF else TARGET_XFER_OK,
          xfered_len := some piod_len,
          readbuf :=
            match writebuf with
            | some _ => readbuf
            | none => readbuf.map (fun rb => memcpy rb 0 (load_bytes t.mem piod_offs) piod_len),
          mem :=
            match writebuf with
            | some wb => store_bytes t.mem piod_offs piod_len wb
            | none => t.mem,
          log := log }
      | PtIoAnswer.failed errno =>
        if errno ≠ EINVAL then
          { status := TARGET_XFER_EOF, xfered_len := none, readbuf := readbuf,
            mem := t.mem, log := log }
        else xfer_memory_word cfg pid t buffer readbuf writebuf offset len log
    else xfer_memory_word cfg pid t buffer readbuf writebuf offset len []
  | target_object.TARGET_OBJECT_UNWIND_TABLE => failure
  | target_object.TARGET_OBJECT_AUXV =>
    if cfg.PT_IO_defined ∧ cfg.PIOD_READ_AUXV_defined then
      if writebuf.isSome then failure
      else
        let piod_offs := offset % ULONGEST_MOD
        let piod_len := len % ULONGEST_MOD
        let log := [KernelCall.ptrace_io pid PiodOp.PIOD_READ_AUXV piod_offs piod_len]
        match t.pt_io_answer PiodOp.PIOD_READ_AUXV piod_offs piod_len with
        | PtIoAnswer.moved piod_len =>
          { status := if piod_len = 0 then TARGET_XFER_EOF else TARGET_XFER_OK,
            xfered_len := some piod_len,
            readbuf := readbuf.map (fun rb => memcpy rb 0 (load_bytes t.auxv piod_offs) piod_len),
            mem := t.mem, log := log }
        | PtIoAnswer.failed _ => { failure with log := log }
    else failure
  | target_object.TARGET_OBJECT_WCOOKIE => failure
  | target_object.TARGET_OBJECT_OTHER => failure

/-! ## `sh-linux-nat.c`: the register index map -/

/-- The register offsets of `<asm/ptrace.h>` (a header of the kernel, not of
gdb) that `regmap` is built from. -/
structure AsmPtrace where
  REG_REG0 : Int
  REG_PC : Int
  REG_PR : Int
  REG_GBR : Int
  REG_MACH : Int
  REG_MACL : Int
  REG_SR : Int
  REG_FPUL : Int
  REG_FPSCR : Int
  REG_FPREG0 : Int
  deriving DecidableEq, Repr

/-- The offsets in the SuperH GNU/Linux kernel header. -/
def linux_sh_asm_ptrace : AsmPtrace :=
  { REG_REG0 := 0, REG_PC := 16, REG_PR := 17, REG_SR := 18, REG_GBR := 19,
    REG_MACH := 20, REG_MACL := 21, REG_FPREG0 := 23, REG_FPSCR := 55, REG_FPUL := 56 }

/-- `SH_LINUX_NUM_REGS` (sh-linux-nat.c:43). -/
def SH_LINUX_NUM_REGS : Int := 40

/-- `regmap` (sh-linux-nat.c:45-61). -/
def regmap (k : AsmPtrace) : List Int :=
  [ -- general registers 0-15
    k.REG_REG0, k.REG_REG0 + 1, k.REG_REG0 + 2, k.REG_REG0 + 3,
    k.REG_REG0 + 4, k.REG_REG0 + 5, k.REG_REG0 + 6, k.REG_REG0 + 7,
    k.REG_REG0 + 8, k.REG_REG0 + 9, k.REG_REG0 + 10, k.REG_REG0 + 11,
    k.REG_REG0 + 12, k.REG_REG0 + 13, k.REG_REG0 + 14, k.REG_REG0 + 15,
    -- 16 - 22
    k.REG_PC, k.REG_PR, k.REG_GBR, -1, k.REG_MACH, k.REG_MACL, k.REG_SR,
    -- 23, 24
    k.REG_FPUL, k.REG_FPSCR,
    -- floating point registers 25 - 40
    k.REG_FPREG0, k.REG_FPREG0 + 1, k.REG_FPREG0 + 2, k.REG_FPREG0 + 3,
    k.REG_FPREG0 + 4, k.REG_FPREG0 + 5, k.REG_FPREG0 + 6, k.REG_FPREG0 + 7,
    k.REG_FPREG0 + 8, k.REG_FPREG0 + 9, k.REG_FPREG0 + 10, k.REG_FPREG0 + 11,
    k.REG_FPREG0 + 12, k.REG_FPREG0 + 13, k.REG_FPREG0 + 14, k.REG_FPREG0 + 15 ]

/-- The entry `regmap[regno]` for an index inside the table. -/
def regmap_entry (k : AsmPtrace) (regno : Int) : Option Int :=
  if regno < 0 then none else (regmap k)[regno.toNat]?

/-- The modulus of `CORE_ADDR` arithmetic. -/
def CORE_ADDR_MOD : Nat := 2 ^ 64

/-- `register_u_addr` (sh-linux-nat.c:63-69); `sizeof regmap / sizeof regmap[0]`
is the length of the table. -/
def register_u_addr (k : AsmPtrace) (blockend : Nat) (regnum : Int) : Nat :=
  if regnum < 0 ∨ regnum ≥ ((regmap k).length : Int) then CORE_ADDR_MOD - 1
  else (((blockend : Int) + 4 * (regmap k).getD regnum.toNat 0) % (CORE_ADDR_MOD : Int)).toNat

/-- `register_addr` (sh-linux-nat.c:75-88); `REGISTER_U_ADDR` is the macro of
config/sh/nm-linux.h that calls `register_u_addr`. -/
def register_addr (k : AsmPtrace) (regno : Int) (blockend : Nat) : Except GdbError Nat :=
  if regno < 0 ∨ regno ≥ SH_LINUX_NUM_REGS then
    Except.error (GdbError.internal_error "Got request for bad register number")
  else
    Except.ok (register_u_addr k blockend regno)

/-- `cannot_fetch_register` (sh-linux-nat.c:205-209). -/
def cannot_fetch_register (k : AsmPtrace) (regno : Int) : Bool :=
  decide (regno < 0) || decide (regno ≥ ((regmap k).length : Int))
    || decide ((regmap k).getD regno.toNat 0 = -1)

/-- `cannot_store_register` (sh-linux-nat.c:211-215). -/
def cannot_store_register (k : AsmPtrace) (regno : Int) : Bool :=
  decide (regno < 0) || decide (regno ≥ ((regmap k).length : Int))
    || decide ((regmap k).getD regno.toNat 0 = -1)

/-! ## `sh-linux-nat.c`: fetching and storing registers -/

/-- Modelled from the spec: one entry of the register cache, the collaborator
behind `supply (register_number, raw_bytes_or_unavailable)` and
`collect (register_number)`: never supplied, supplied as unavailable (a null
buffer), or supplied with a value. -/
inductive RegEntry where
  | unknown
  | unavailable
  | value (v : Int)
  deriving DecidableEq, Repr

/-- Modelled from the spec: `regcache_raw_supply (regcache, regno, buf)`; a
null `buf` is `none`. -/
def regcache_raw_supply (regcache : Int → RegEntry) (regno : Int) (buf : Option Int) :
    Int → RegEntry :=
  fun r =>
    if r = regno then
      match buf with
      | none => RegEntry.unavailable
      | some v => RegEntry.value v
    else regcache r

/-- Modelled from the spec: `regcache_raw_collect (regcache, regno, buf)`, the
value copied into `buf`; a register without a value collects as zero. -/
def regcache_raw_collect (regcache : Int → RegEntry) (regno : Int) : Int :=
  match regcache regno with
  | RegEntry.value v => v
  | _ => 0

/-- The kernel's user area: the word of a thread at an address, and `errno`
after a `PTRACE_PEEKUSER` or `PTRACE_POKEUSER` of a thread at an address
(zero meaning success). -/
structure UserArea where
  word : Int → Nat → Int
  peek_errno : Int → Nat → Int
  poke_errno : Int → Nat → Int

/-- The user area after a successful `PTRACE_POKEUSER`. -/
def UserArea.poke (u : UserArea) (tid : Int) (addr : Nat) (val : Int) : UserArea :=
  { u with word := fun t a => if t = tid ∧ a = addr then val else u.word t a }

/-- The state the register transfer functions work on, with the requests made
so far and the error that ended the transfer, if any. -/
structure RegState where
  regcache : Int → RegEntry
  uarea : UserArea
  log : List KernelCall
  error : Option GdbError

/-- `fetch_register` (sh-linux-nat.c:92-109).  On SuperH `int` and `long` have
the same width, so `val = ptrace (...)` keeps the word as it is. -/
def fetch_register (k : AsmPtrace) (s : RegState) (tid : Int) (regno : Int) : RegState :=
  if cannot_fetch_register k regno then
    { s with regcache := regcache_raw_supply s.regcache regno none }
  else
    match register_addr k regno 0 with
    | Except.error e => { s with error := some e }
    | Except.ok addr =>
      let log := s.log ++ [KernelCall.ptrace PtraceRequest.PTRACE_PEEKUSER tid addr 0]
      if s.uarea.peek_errno tid addr ≠ 0 then
        { s with log := log,
                 error := some (GdbError.perror_with_name "Couldn't get registers"
                                  (s.uarea.peek_errno tid addr)) }
      else
        let val := s.uarea.word tid addr
        { s with log := log, regcache := regcache_raw_supply s.regcache regno (some val) }

/-- `store_register` (sh-linux-nat.c:113-126). -/
def store_register (k : AsmPtrace) (s : RegState) (tid : Int) (regno : Int) : RegState :=
  if cannot_store_register k regno then s
  else
    let val := regcache_raw_collect s.regcache regno
    match register_addr k regno 0 with
    | Except.error e => { s with error := some e }
    | Except.ok addr =>
      let log := s.log ++ [KernelCall.ptrace PtraceRequest.PTRACE_POKEUSER tid addr val]
      if s.uarea.poke_errno tid addr ≠ 0 then
        { s with log := log,
                 error := some (GdbError.perror_with_name "Couldn't write registers"
                                  (s.uarea.poke_errno tid addr)) }
      else
        { s with log := log, uarea := s.uarea.poke tid addr val }

/-- The loop `for (i = 0; i < SH_LINUX_NUM_REGS; i++) if (regno == -1 || regno
== i) body (i)`, which an error leaves at once. -/
def for_each_register (body : RegState → Int → RegState) (regno : Int) (s : RegState) :
    RegState :=
  (List.range SH_LINUX_NUM_REGS.toNat).foldl
    (fun (s : RegState) (i : Nat) =>
      if s.error.isSome then s
      else if regno = -1 ∨ regno = (i : Int) then body s (i : Int) else s)
    s

/-- The thread id both transfer functions compute from `inferior_ptid`
(sh-linux-nat.c:227-229 and 245-247).  `tid` is an `int`: the assignment
`tid = ptid_get_lwp (inferior_ptid)` narrows the `long` it is given, and the
test for zero is made on the value of the assignment. -/
def sh_linux_tid (inferior_ptid : ptid_t) : Int :=
  let tid := wrap_int (ptid_get_lwp inferior_ptid)
  if tid = 0 then ptid_get_pid inferior_ptid else tid

/-- `sh_linux_fetch_inferior_registers` (sh-linux-nat.c:221-234). -/
def sh_linux_fetch_inferior_registers (k : AsmPtrace) (inferior_ptid : ptid_t)
    (s : RegState) (regno : Int) : RegState :=
  let tid := sh_linux_tid inferior_ptid
  for_each_register (fun s i => fetch_register k s tid i) regno s

/-- `sh_linux_store_inferior_registers` (sh-linux-nat.c:239-252). -/
def sh_linux_store_inferior_registers (k : AsmPtrace) (inferior_ptid : ptid_t)
    (s : RegState) (regno : Int) : RegState :=
  let tid := sh_linux_tid inferior_ptid
  for_each_register (fun s i => store_register k s tid i) regno s

/-! ## `sh-linux-nat.c`: register sets -/

/-- `FPUL_REGNUM` of sh-tdep.h. -/
def FPUL_REGNUM : Int := 23

/-- `FPSCR_REGNUM` of sh-tdep.h. -/
def FPSCR_REGNUM : Int := 24

/-- A packed register set of the kernel, a word per slot. -/
abbrev RegSet := Int → Int

/-- The assignment `regp[slot] = val`. -/
def RegSet.set (regp : RegSet) (slot : Int) (val : Int) : RegSet :=
  fun j => if j = slot then val else regp j

/-- `supply_gregset` (sh-linux-nat.c:134-145). -/
def supply_gregset (k : AsmPtrace) (regcache : Int → RegEntry) (regp : RegSet) :
    Int → RegEntry :=
  (List.range 23).foldl
    (fun (rc : Int → RegEntry) (i : Nat) =>
      if (regmap k).getD i 0 = -1 then regcache_raw_supply rc (i : Int) none
      else regcache_raw_supply rc (i : Int) (some (regp ((regmap k).getD i 0))))
    regcache

/-- `fill_gregset` (sh-linux-nat.c:151-160). -/
def fill_gregset (k : AsmPtrace) (regcache : Int → RegEntry) (regp : RegSet) (regno : Int) :
    RegSet :=
  (List.range 23).foldl
    (fun (regp : RegSet) (i : Nat) =>
      if (regmap k).getD i 0 ≠ -1 ∧ (regno = -1 ∨ regno = (i : Int)) then
        regp.set ((regmap k).getD i 0) (regcache_raw_collect regcache (i : Int))
      else regp)
    regp

/-- `supply_fpregset` (sh-linux-nat.c:167-177). -/
def supply_fpregset (k : AsmPtrace) (regcache : Int → RegEntry) (regp : RegSet) :
    Int → RegEntry :=
  let rc := (List.range 16).foldl
    (fun (rc : Int → RegEntry) (i : Nat) =>
      regcache_raw_supply rc (25 + (i : Int)) (some (regp (i : Int))))
    regcache
  let rc := regcache_raw_supply rc FPUL_REGNUM (some (regp (k.REG_FPUL - k.REG_FPREG0)))
  regcache_raw_supply rc FPSCR_REGNUM (some (regp (k.REG_FPSCR - k.REG_FPREG0)))

/-- `fill_fpregset` (sh-linux-nat.c:183-196). -/
def fill_fpregset (k : AsmPtrace) (regcache : Int → RegEntry) (regp : RegSet) (regno : Int) :
    RegSet :=
  let regp := (List.range 16).foldl
    (fun (regp : RegSet) (i : Nat) =>
      if regno = -1 ∨ regno = (i : Int) then
        regp.set (i : Int) (regcache_raw_collect regcache (25 + (i : Int)))
      else regp)
    regp
  let regp :=
    if regno = -1 ∨ regno = FPSCR_REGNUM then
      regp.set (k.REG_FPSCR - k.REG_FPREG0) (regcache_raw_collect regcache FPSCR_REGNUM)
    else regp
  if regno = -1 ∨ regno = FPUL_REGNUM then
    regp.set (k.REG_FPUL - k.REG_FPREG0) (regcache_raw_collect regcache FPUL_REGNUM)
  else regp

/-! ## Sample inputs -/

/-- A tracee whose bytes are all `0xaa`, whose `PT_IO` requests move nothing and
whose one-word requests all succeed. -/
def quiet_tracee : Tracee :=
  { mem := fun _ => 170, auxv := fun _ => 0,
    pt_io_answer := fun _ _ _ => PtIoAnswer.moved 0,
    read_i_errno := fun _ => 0, write_d_errno := fun _ => 0, write_i_errno := fun _ => 0 }

/-- A configuration with every feature macro defined and an 8-byte word. -/
def bsd_config : Config :=
  { PT_GET_PROCESS_STATE_defined := true, PT_ATTACH_defined := true,
    PT_DETACH_defined := true, PT_IO_defined := true, PIOD_READ_AUXV_defined := true,
    sizeof_PTRACE_TYPE_RET := 8 }

/-- A user area of zero words in which every request succeeds. -/
def zero_uarea : UserArea :=
  { word := fun _ _ => 0, peek_errno := fun _ _ => 0, poke_errno := fun _ _ => 0 }

/-- A register state whose cache holds the value `v` for register `regno` and
nothing else, over `zero_uarea`, with no request made yet. -/
def one_register_state (regno v : Int) : RegState :=
  { regcache := fun r => if r = regno then RegEntry.value v else RegEntry.unknown,
    uarea := zero_uarea, log := [], error := none }

/-- A configuration without `PT_IO`, with an 8-byte word. -/
def linux_config : Config :=
  { PT_GET_PROCESS_STATE_defined := false, PT_ATTACH_defined := true,
    PT_DETACH_defined := true, PT_IO_defined := false, PIOD_READ_AUXV_defined := false,
    sizeof_PTRACE_TYPE_RET := 8 }

/-- A tracee whose byte at address `a` is `a % 251`, without `PT_IO` support
(every bulk request fails with `EINVAL`) and whose one-word requests succeed. -/
def counting_tracee : Tracee :=
  { mem := fun a => a % 251, auxv := fun _ => 0,
    pt_io_answer := fun _ _ _ => PtIoAnswer.failed EINVAL,
    read_i_errno := fun _ => 0, write_d_errno := fun _ => 0, write_i_errno := fun _ => 0 }

/-- The process states of a fork seen from the child's side first: process
200 reports a fork naming 100 to the first request, process 100 a fork naming
200 to the second. -/
def fork_states : Nat → Int → Option ptrace_state_t :=
  fun n pid =>
    if n = 0 ∧ pid = 200 then some ⟨ptrace_event.PTRACE_FORK, 100⟩
    else if n = 1 ∧ pid = 100 then some ⟨ptrace_event.PTRACE_FORK, 200⟩
    else none

/-- The kernel's `waitpid` answers for that fork: the child 200 stops, then the
parent 100. -/
def fork_answers : List WaitAnswer :=
  [⟨200, HostStatus.stopped 19, 0⟩, ⟨100, HostStatus.stopped 5, 0⟩]

/-- A status structure the caller has not filled in. -/
def blank_status : target_waitstatus :=
  { kind := target_waitkind.TARGET_WAITKIND_IGNORE, integer := 0,
    sig := gdb_signal.from_host 0, related_pid := null_ptid }

/-- A register cache that holds the value `100 + r` for every register `r`. -/
def numbered_cache : Int → RegEntry :=
  fun r => RegEntry.value (100 + r)

/-- A register set whose slots are all zero. -/
def zero_regset : RegSet :=
  fun _ => 0

/-- A registry in which process 100 was attached to and has one thread. -/
def attached_registry : Registry :=
  { target_pushed := true, current_inferior := { pid := 100, attach_flag := 1 },
    inferior_ptid := pid_to_ptid 100, thread_list := [pid_to_ptid 100] }

/-- A tracee whose bulk requests fail with `EIO` (5) and whose one-word
requests would all succeed. -/
def refusing_tracee : Tracee :=
  { mem := fun _ => 170, auxv := fun _ => 0,
    pt_io_answer := fun _ _ _ => PtIoAnswer.failed 5,
    read_i_errno := fun _ => 0, write_d_errno := fun _ => 0, write_i_errno := fun _ => 0 }

/-- The identity of thread 200 of process 100. -/
def threaded_ptid : ptid_t := ⟨100, 200, 0⟩

/-- An identity of process 100 whose lightweight-thread id is `2 ^ 32`, a
`long` that does not fit in a `pid_t`. -/
def wide_ptid : ptid_t := ⟨100, 4294967296, 0⟩

/-! ## Theorems -/

/-! ### C1: `auxv_parse` -/

theorem wrap_int_of_small (n : Nat) (h : n < 2 ^ 31) : wrap_int (n : Int) = n := by
  unfold wrap_int
  omega

/-- C1. `auxv_parse` with `readptr ≤ endptr` and pointer width `W` (a positive
byte count whose double fits a C `int`): the return code is 0 exactly when no
byte remains; it is -1 for every remaining length from 1 to `2 * W - 1`, and
then the cursor does not move; and for every remaining length of at least
`2 * W` it is 1 and the cursor has advanced by exactly `2 * W`. -/
theorem auxv_parse_contract (Wi W : Nat) (ex : Nat → Int → Nat) (readptr endptr : Nat)
    (hle : readptr ≤ endptr) (hW : 0 < W) (hWs : W < 2 ^ 30) :
    ((auxv_parse Wi W ex readptr endptr).ret = 0 ↔ endptr - readptr = 0) ∧
    (1 ≤ endptr - readptr → endptr - readptr ≤ 2 * W - 1 →
      (auxv_parse Wi W ex readptr endptr).ret = -1 ∧
      (auxv_parse Wi W ex readptr endptr).readptr = readptr) ∧
    (2 * W ≤ endptr - readptr →
      (auxv_parse Wi W ex readptr endptr).ret = 1 ∧
      (auxv_parse Wi W ex readptr endptr).readptr = readptr + 2 * W ∧
      (auxv_parse Wi W ex readptr endptr).typep = some (ex readptr (wrap_int Wi)) ∧
      (auxv_parse Wi W ex readptr endptr).valp = some (ex (readptr + W) W)) := by
  have h1 : wrap_int (W : Int) = W := wrap_int_of_small W (by omega)
  have h2 : wrap_int (2 * (W : Int)) = 2 * W := by
    have := wrap_int_of_small (2 * W) (by omega)
    simpa using this
  unfold auxv_parse
  simp only [h1, h2]
  refine ⟨?_, ?_, ?_⟩
  · split_ifs with ha hb
    · simp; omega
    · simp; omega
    · simp; omega
  · intro h1' h2'
    rw [if_neg (by omega), if_pos (by omega)]
    simp
  · intro h3
    rw [if_neg (by omega), if_neg (by omega)]
    simp
    refine ⟨by omega, ?_⟩
    congr 1

theorem auxv_parse_contract_witness :
    ((auxv_parse 4 8 (fun a _ => a) 100 116).ret = 0 ↔ 116 - 100 = 0) ∧
    (1 ≤ 116 - 100 → 116 - 100 ≤ 2 * 8 - 1 →
      (auxv_parse 4 8 (fun a _ => a) 100 116).ret = -1 ∧
      (auxv_parse 4 8 (fun a _ => a) 100 116).readptr = 100) ∧
    (2 * 8 ≤ 116 - 100 →
      (auxv_parse 4 8 (fun a _ => a) 100 116).ret = 1 ∧
      (auxv_parse 4 8 (fun a _ => a) 100 116).readptr = 100 + 2 * 8 ∧
      (auxv_parse 4 8 (fun a _ => a) 100 116).typep = some ((fun a _ => a) 100 (wrap_int 4)) ∧
      (auxv_parse 4 8 (fun a _ => a) 100 116).valp = some ((fun a _ => a) (100 + 8) 8)) :=
  auxv_parse_contract 4 8 (fun a _ => a) 100 116 (by decide) (by decide) (by decide)

/-! ### The word-at-a-time path of `xfer_partial`: the quantities it computes -/

theorem and_neg_two_pow (k x : Nat) (hk : k < 64) (hx : x < 2 ^ 64) :
    x &&& ((2 ^ 64 - 2 ^ k % 2 ^ 64) % 2 ^ 64) = x - x % 2 ^ k := by
  have hpow : 2 ^ k < 2 ^ 64 := Nat.pow_lt_pow_right (by decide) hk
  have hpos : 0 < 2 ^ k := Nat.two_pow_pos k
  have e1 : (2 ^ 64 - 2 ^ k % 2 ^ 64) % 2 ^ 64 = 2 ^ 64 - ((2 ^ k - 1) + 1) := by
    rw [Nat.mod_eq_of_lt hpow, Nat.mod_eq_of_lt (by omega)]
    congr 1
    omega
  have e2 : x - x % 2 ^ k = 2 ^ k * (x / 2 ^ k) := by
    have := Nat.div_add_mod x (2 ^ k)
    omega
  rw [e1, e2]
  apply Nat.eq_of_testBit_eq
  intro i
  rw [Nat.testBit_and, Nat.testBit_two_pow_sub_succ (by omega), Nat.testBit_two_pow_sub_one,
    Nat.testBit_mul_pow_two, ← Nat.shiftRight_eq_div_pow, Nat.testBit_shiftRight]
  by_cases hik : i < k
  · have : ¬ (i ≥ k) := by omega
    simp [hik, this]
  · have hge : i ≥ k := by omega
    by_cases hi : i < 64
    · simp [hik, hge, hi, Nat.add_sub_of_le hge]
    · have hxi : x.testBit i = false := by
        apply Nat.testBit_lt_two_pow
        calc x < 2 ^ 64 := hx
          _ ≤ 2 ^ i := Nat.pow_le_pow_right (by decide) (by omega)
      simp [hik, hge, hi, hxi, Nat.add_sub_of_le hge]

/-- The aligned word that contains `offset` ends inside the address space. -/
theorem aligned_word_fits (k offset : Nat) (hk : k < 64) (hoff : offset < 2 ^ 64) :
    offset - offset % 2 ^ k + 2 ^ k ≤ 2 ^ 64 := by
  have hsplit : 2 ^ 64 = 2 ^ k * 2 ^ (64 - k) := by
    rw [← Nat.pow_add]
    congr 1
    omega
  have hq : offset / 2 ^ k < 2 ^ (64 - k) := by
    apply Nat.div_lt_of_lt_mul
    rw [← hsplit]
    exact hoff
  have hmul : 2 ^ k * (offset / 2 ^ k + 1) ≤ 2 ^ k * 2 ^ (64 - k) :=
    Nat.mul_le_mul_left _ hq
  have hdm := Nat.div_add_mod offset (2 ^ k)
  rw [Nat.mul_add, Nat.mul_one, ← hsplit] at hmul
  omega

theorem ulongest_word_end_sub (W R P offset : Nat) (hP : P < W) (hR : R + P = offset)
    (hW : W < 2 ^ 64) (hfit : R + W ≤ 2 ^ 64) (hoff : offset < 2 ^ 64) :
    ((R + W) % 2 ^ 64 + 2 ^ 64 - offset) % 2 ^ 64 = W - P := by
  simp only [show (2 : Nat) ^ 64 = 18446744073709551616 by norm_num] at *
  rcases Nat.lt_or_ge (R + W) 18446744073709551616 with h | h
  · rw [Nat.mod_eq_of_lt h]
    have e : R + W + 18446744073709551616 - offset = (W - P) + 18446744073709551616 := by omega
    rw [e, Nat.add_mod_right]
    apply Nat.mod_eq_of_lt
    omega
  · have e : R + W = 18446744073709551616 := by omega
    rw [e, Nat.mod_self]
    have e2 : 0 + 18446744073709551616 - offset = W - P := by omega
    rw [e2]
    apply Nat.mod_eq_of_lt
    omega

theorem ulongest_offset_sub (R P offset : Nat) (hR : R + P = offset) (hoff : offset < 2 ^ 64) :
    (offset + 2 ^ 64 - R % 2 ^ 64) % 2 ^ 64 = P := by
  simp only [show (2 : Nat) ^ 64 = 18446744073709551616 by norm_num] at *
  rw [Nat.mod_eq_of_lt (show R < 18446744073709551616 by omega)]
  have e : offset + 18446744073709551616 - R = P + 18446744073709551616 := by omega
  rw [e, Nat.add_mod_right]
  apply Nat.mod_eq_of_lt
  omega

/-- The quantities the word-at-a-time block computes, for a word of `2 ^ k`
bytes: the rounded offset, the length before it is cut down to `len`, and the
index of `offset` in the word. -/
theorem word_block_geometry (k offset : Nat) (hk : k < 64) (hoff : offset < ULONGEST_MOD) :
    offset % ULONGEST_MOD = offset ∧
    (offset &&& ((ULONGEST_MOD - 2 ^ k % ULONGEST_MOD) % ULONGEST_MOD)
      = offset - offset % 2 ^ k) ∧
    ((offset - offset % 2 ^ k + 2 ^ k) % ULONGEST_MOD + ULONGEST_MOD - offset) % ULONGEST_MOD
      = 2 ^ k - offset % 2 ^ k ∧
    (offset + ULONGEST_MOD - (offset - offset % 2 ^ k) % ULONGEST_MOD) % ULONGEST_MOD
      = offset % 2 ^ k := by
  have hfit := aligned_word_fits k offset hk hoff
  have hand := and_neg_two_pow k offset hk hoff
  have hpos : 0 < 2 ^ k := Nat.two_pow_pos k
  have hpow : 2 ^ k < 2 ^ 64 := Nat.pow_lt_pow_right (by decide) hk
  have hmod : offset % 2 ^ k < 2 ^ k := Nat.mod_lt _ hpos
  have hle : offset % 2 ^ k ≤ offset := Nat.mod_le _ _
  have hR : offset - offset % 2 ^ k + offset % 2 ^ k = offset := Nat.sub_add_cancel hle
  unfold ULONGEST_MOD at *
  exact ⟨Nat.mod_eq_of_lt hoff, hand,
    ulongest_word_end_sub _ _ _ _ hmod hR hpow hfit hoff,
    ulongest_offset_sub _ _ _ hR hoff⟩

/-- When `PT_IO` is not compiled in, or the kernel answers the bulk request
with `EINVAL`, a memory transfer is carried out by the word-at-a-time block. -/
theorem xfer_partial_memory_fallback (cfg : Config) (inferior_ptid : ptid_t) (t : Tracee)
    (buffer : Nat → Nat) (readbuf writebuf : Option (Nat → Nat)) (offset len : Nat)
    (hoff : offset < ULONGEST_MOD) (hlen : len < ULONGEST_MOD)
    (hpath : cfg.PT_IO_defined = false ∨
      t.pt_io_answer (if writebuf.isSome then PiodOp.PIOD_WRITE_I else PiodOp.PIOD_READ_D)
        offset len = PtIoAnswer.failed EINVAL) :
    xfer_partial cfg inferior_ptid t buffer target_object.TARGET_OBJECT_MEMORY
        readbuf writebuf offset len =
      xfer_memory_word cfg (ptid_get_pid inferior_ptid) t buffer readbuf writebuf offset len
        (if cfg.PT_IO_defined then
          [KernelCall.ptrace_io (ptid_get_pid inferior_ptid)
            (if writebuf.isSome then PiodOp.PIOD_WRITE_I else PiodOp.PIOD_READ_D) offset len]
         else []) := by
  have ho : offset % ULONGEST_MOD = offset := Nat.mod_eq_of_lt hoff
  have hl : len % ULONGEST_MOD = len := Nat.mod_eq_of_lt hlen
  unfold xfer_partial
  cases hc : cfg.PT_IO_defined with
  | false => simp
  | true =>
    rcases hpath with h | h
    · rw [hc] at h
      exact absurd h (by decide)
    · simp only [ho, hl, h]
      simp

theorem store_bytes_inside (mem src : Nat → Nat) (addr n i : Nat) (hi : i < n)
    (hfit : addr + n ≤ ULONGEST_MOD) : store_bytes mem addr n src (addr + i) = src i := by
  unfold store_bytes ULONGEST_MOD at *
  simp only [show (2 : Nat) ^ 64 = 18446744073709551616 by norm_num] at *
  have e1 : (addr + i) % 18446744073709551616 = addr + i := Nat.mod_eq_of_lt (by omega)
  have e2 : addr % 18446744073709551616 = addr := Nat.mod_eq_of_lt (by omega)
  have e3 : addr + i + 18446744073709551616 - addr = i + 18446744073709551616 := by omega
  have e4 : i % 18446744073709551616 = i := Nat.mod_eq_of_lt (by omega)
  simp only [e1, e2, e3, Nat.add_mod_right, e4, hi, if_true]

/-! ### C2: writing less than a word -/

open target_xfer_status in
/-- The read-modify-write of the word-at-a-time path, away from the last
aligned word of the address space. For a memory write of fewer bytes than a
word (`W = 2 ^ k`) whose word read succeeds and whose word write succeeds
through `PT_WRITE_D` or, failing that, `PT_WRITE_I`, at an offset that is not
word-aligned or whose word does not end at `2 ^ 64`: the call returns
`TARGET_XFER_OK` having transferred `n = min len (W - offset % W)` bytes, the
word it asks the kernel to write has the first `n` bytes of the write buffer
at `offset` and the tracee's previous bytes everywhere else, and so has the
tracee's aligned word afterwards. -/
theorem xfer_partial_word_write (cfg : Config) (inferior_ptid : ptid_t) (t : Tracee)
    (buffer wb : Nat → Nat) (offset len k : Nat)
    (hW : cfg.sizeof_PTRACE_TYPE_RET = 2 ^ k) (hk : k < 64)
    (hoff : offset < ULONGEST_MOD) (hN : len < 2 ^ k)
    (hpath : cfg.PT_IO_defined = false ∨
      t.pt_io_answer PiodOp.PIOD_WRITE_I offset len = PtIoAnswer.failed EINVAL)
    (hsafe : offset % 2 ^ k ≠ 0 ∨ offset + 2 ^ k < ULONGEST_MOD)
    (hread : t.read_i_errno (offset - offset % 2 ^ k) = 0)
    (hwrite : t.write_d_errno (offset - offset % 2 ^ k) = 0 ∨
      t.write_i_errno (offset - offset % 2 ^ k) = 0) :
    ( xfer_partial cfg inferior_ptid t buffer target_object.TARGET_OBJECT_MEMORY
        none (some wb) offset len).status = TARGET_XFER_OK ∧
    ( xfer_partial cfg inferior_ptid t buffer target_object.TARGET_OBJECT_MEMORY
        none (some wb) offset len).xfered_len = some (min len (2 ^ k - offset % 2 ^ k)) ∧
    KernelCall.ptrace_word PtraceRequest.PT_WRITE_D (ptid_get_pid inferior_ptid)
        (offset - offset % 2 ^ k)
        ((List.range (2 ^ k)).map (fun i =>
          if offset % 2 ^ k ≤ i ∧ i < offset % 2 ^ k + min len (2 ^ k - offset % 2 ^ k)
          then wb (i - offset % 2 ^ k) else t.mem (offset - offset % 2 ^ k + i)))
      ∈ ( xfer_partial cfg inferior_ptid t buffer target_object.TARGET_OBJECT_MEMORY
            none (some wb) offset len).log ∧
    (∀ i, i < 2 ^ k →
      ( xfer_partial cfg inferior_ptid t buffer target_object.TARGET_OBJECT_MEMORY
          none (some wb) offset len).mem (offset - offset % 2 ^ k + i)
        = if offset % 2 ^ k ≤ i ∧ i < offset % 2 ^ k + min len (2 ^ k - offset % 2 ^ k)
          then wb (i - offset % 2 ^ k) else t.mem (offset - offset % 2 ^ k + i)) := by
  have hpow : 2 ^ k < 2 ^ 64 := Nat.pow_lt_pow_right (by decide) hk
  have hlen : len < ULONGEST_MOD := by
    unfold ULONGEST_MOD
    omega
  have hfb := xfer_partial_memory_fallback cfg inferior_ptid t buffer none (some wb) offset len
    hoff hlen (by simpa using hpath)
  obtain ⟨g0, g1, g2, g3⟩ := word_block_geometry k offset hk hoff
  have hl : len % ULONGEST_MOD = len := Nat.mod_eq_of_lt hlen
  have hpos : 0 < 2 ^ k := Nat.two_pow_pos k
  have hmod : offset % 2 ^ k < 2 ^ k := Nat.mod_lt _ hpos
  have hle : offset % 2 ^ k ≤ offset := Nat.mod_le _ _
  have hfit := aligned_word_fits k offset hk hoff
  have hmin : (if 2 ^ k - offset % 2 ^ k > len then len else 2 ^ k - offset % 2 ^ k)
      = min len (2 ^ k - offset % 2 ^ k) := by
    split <;> omega
  have hneed : (decide (offset - offset % 2 ^ k < offset)
      || decide ((offset + min len (2 ^ k - offset % 2 ^ k)) % ULONGEST_MOD
          < (offset - offset % 2 ^ k + 2 ^ k) % ULONGEST_MOD)) = true := by
    rcases Nat.eq_zero_or_pos (offset % 2 ^ k) with h0 | h0
    · have hs : offset + 2 ^ k < ULONGEST_MOD := by
        rcases hsafe with h | h
        · exact absurd h0 h
        · exact h
      unfold ULONGEST_MOD at hs ⊢
      have e1 : (offset + min len (2 ^ k - offset % 2 ^ k)) % 2 ^ 64
          = offset + min len (2 ^ k - offset % 2 ^ k) := Nat.mod_eq_of_lt (by omega)
      have e2 : (offset - offset % 2 ^ k + 2 ^ k) % 2 ^ 64 = offset - offset % 2 ^ k + 2 ^ k :=
        Nat.mod_eq_of_lt (by omega)
      rw [e1, e2]
      simp only [Bool.or_eq_true, decide_eq_true_eq]
      right
      omega
    · simp only [Bool.or_eq_true, decide_eq_true_eq]
      left
      omega
  have hbytes : ∀ i, i < 2 ^ k →
      memcpy (load_bytes t.mem (offset - offset % 2 ^ k)) (offset % 2 ^ k) wb
        (min len (2 ^ k - offset % 2 ^ k)) i
      = if offset % 2 ^ k ≤ i ∧ i < offset % 2 ^ k + min len (2 ^ k - offset % 2 ^ k)
        then wb (i - offset % 2 ^ k) else t.mem (offset - offset % 2 ^ k + i) := by
    intro i hi
    unfold memcpy load_bytes ULONGEST_MOD
    rw [Nat.mod_eq_of_lt (show offset - offset % 2 ^ k + i < 2 ^ 64 by omega)]
  have hword : word_bytes (2 ^ k)
      (memcpy (load_bytes t.mem (offset - offset % 2 ^ k)) (offset % 2 ^ k) wb
        (min len (2 ^ k - offset % 2 ^ k)))
      = (List.range (2 ^ k)).map (fun i =>
          if offset % 2 ^ k ≤ i ∧ i < offset % 2 ^ k + min len (2 ^ k - offset % 2 ^ k)
          then wb (i - offset % 2 ^ k) else t.mem (offset - offset % 2 ^ k + i)) := by
    unfold word_bytes
    apply List.map_congr_left
    intro i hi
    exact hbytes i (List.mem_range.mp hi)
  have hfitU : offset - offset % 2 ^ k + 2 ^ k ≤ ULONGEST_MOD := hfit
  rw [hfb]
  unfold xfer_memory_word
  simp only [hW, g0, hl, g1, g2, g3, hmin, hneed, if_true, ptrace_read_i, hread, hword]
  by_cases hd : t.write_d_errno (offset - offset % 2 ^ k) = 0
  · simp only [hd, ne_eq, not_true_eq_false, if_false]
    refine ⟨trivial, trivial, by simp, ?_⟩
    intro i hi
    show store_bytes _ _ _ _ _ = _
    rw [store_bytes_inside _ _ _ _ _ hi hfitU, hbytes i hi]
  · have hi' : t.write_i_errno (offset - offset % 2 ^ k) = 0 := by
      rcases hwrite with h | h
      · exact absurd h hd
      · exact h
    simp only [hd, hi', ne_eq, not_false_eq_true, not_true_eq_false, if_true, if_false]
    refine ⟨trivial, trivial, by simp, ?_⟩
    intro i hi
    show store_bytes _ _ _ _ _ = _
    rw [store_bytes_inside _ _ _ _ _ hi hfitU, hbytes i hi]

/-- C2 at the last aligned word of the address space. A write of one byte (17)
at offset `2 ^ 64 - 8` with an 8-byte word, into a tracee whose bytes are all
`0xaa` and which accepts every request, when the uninitialised `buffer` holds
zeros: the only request is the `PT_WRITE_D`, no word is read first, and the
word written has the zeros of `buffer` in its bytes 1 to 7, so the tracee's
byte at `2 ^ 64 - 7` changes from `0xaa` to 0 although it is outside the
range written. -/
theorem word_write_last_word_clobbered :
    ( xfer_partial linux_config (pid_to_ptid 7) quiet_tracee (fun _ => 0)
        target_object.TARGET_OBJECT_MEMORY none (some (fun _ => 17))
        18446744073709551608 1).log
      = [KernelCall.ptrace_word PtraceRequest.PT_WRITE_D 7 18446744073709551608
          [17, 0, 0, 0, 0, 0, 0, 0]] ∧
    ( xfer_partial linux_config (pid_to_ptid 7) quiet_tracee (fun _ => 0)
        target_object.TARGET_OBJECT_MEMORY none (some (fun _ => 17))
        18446744073709551608 1).status = target_xfer_status.TARGET_XFER_OK ∧
    ( xfer_partial linux_config (pid_to_ptid 7) quiet_tracee (fun _ => 0)
        target_object.TARGET_OBJECT_MEMORY none (some (fun _ => 17))
        18446744073709551608 1).xfered_len = some 1 ∧
    quiet_tracee.mem 18446744073709551609 = 170 ∧
    ( xfer_partial linux_config (pid_to_ptid 7) quiet_tracee (fun _ => 0)
        target_object.TARGET_OBJECT_MEMORY none (some (fun _ => 17))
        18446744073709551608 1).mem 18446744073709551609 = 0 := by
  decide

/-! ### C3: reading through the word path -/

open target_xfer_status in
/-- The word-at-a-time block on a read whose word request succeeds. -/
theorem xfer_memory_word_read (cfg : Config) (pid : Int) (t : Tracee) (buffer rb : Nat → Nat)
    (offset len k : Nat) (log : List KernelCall)
    (hW : cfg.sizeof_PTRACE_TYPE_RET = 2 ^ k) (hk : k < 64)
    (hoff : offset < ULONGEST_MOD) (hlen : len < ULONGEST_MOD)
    (hread : t.read_i_errno (offset - offset % 2 ^ k) = 0) :
    xfer_memory_word cfg pid t buffer (some rb) none offset len log =
      { status := TARGET_XFER_OK,
        xfered_len := some (min len (2 ^ k - offset % 2 ^ k)),
        readbuf := some (memcpy rb 0
          (fun i => load_bytes t.mem (offset - offset % 2 ^ k) (offset % 2 ^ k + i))
          (min len (2 ^ k - offset % 2 ^ k))),
        mem := t.mem,
        log := log ++ [KernelCall.ptrace PtraceRequest.PT_READ_I pid
                        (offset - offset % 2 ^ k) 0] } := by
  obtain ⟨g0, g1, g2, g3⟩ := word_block_geometry k offset hk hoff
  have hl : len % ULONGEST_MOD = len := Nat.mod_eq_of_lt hlen
  have hmin : (if 2 ^ k - offset % 2 ^ k > len then len else 2 ^ k - offset % 2 ^ k)
      = min len (2 ^ k - offset % 2 ^ k) := by
    split <;> omega
  unfold xfer_memory_word
  simp only [hW, g0, hl, g1, g2, g3, hmin, ptrace_read_i, hread]
  simp

open target_xfer_status in
/-- C3. In the word-at-a-time path of `xfer_partial` (no `PT_IO`, or `PT_IO`
answered with `EINVAL`) for a memory read whose word request succeeds, with a
word of `W = 2 ^ k` bytes and `ULONGEST` offset and length: the call returns
`TARGET_XFER_OK` with `*xfered_len` exactly `min len (W - offset % W)`; that
range ends no later than the aligned word containing `offset`, and is at least
one byte long when `len ≥ 1`; and the read buffer receives the bytes of the
tracee at `offset`, `offset + 1`, ... in its first `*xfered_len` places and is
unchanged after them. -/
theorem xfer_partial_word_read (cfg : Config) (inferior_ptid : ptid_t) (t : Tracee)
    (buffer rb : Nat → Nat) (offset len k : Nat)
    (hW : cfg.sizeof_PTRACE_TYPE_RET = 2 ^ k) (hk : k < 64)
    (hoff : offset < ULONGEST_MOD) (hlen : len < ULONGEST_MOD)
    (hpath : cfg.PT_IO_defined = false ∨
      t.pt_io_answer PiodOp.PIOD_READ_D offset len = PtIoAnswer.failed EINVAL)
    (hread : t.read_i_errno (offset - offset % 2 ^ k) = 0) :
    ( xfer_partial cfg inferior_ptid t buffer target_object.TARGET_OBJECT_MEMORY
        (some rb) none offset len).status = TARGET_XFER_OK ∧
    ( xfer_partial cfg inferior_ptid t buffer target_object.TARGET_OBJECT_MEMORY
        (some rb) none offset len).xfered_len = some (min len (2 ^ k - offset % 2 ^ k)) ∧
    offset % 2 ^ k + min len (2 ^ k - offset % 2 ^ k) ≤ 2 ^ k ∧
    (1 ≤ len → 1 ≤ min len (2 ^ k - offset % 2 ^ k)) ∧
    ∃ rb', ( xfer_partial cfg inferior_ptid t buffer target_object.TARGET_OBJECT_MEMORY
        (some rb) none offset len).readbuf = some rb' ∧
      (∀ i, i < min len (2 ^ k - offset % 2 ^ k) → rb' i = t.mem (offset + i)) ∧
      (∀ i, min len (2 ^ k - offset % 2 ^ k) ≤ i → rb' i = rb i) := by
  have hfb := xfer_partial_memory_fallback cfg inferior_ptid t buffer (some rb) none offset len
    hoff hlen (by simpa using hpath)
  rw [hfb, xfer_memory_word_read cfg _ t buffer rb offset len k _ hW hk hoff hlen hread]
  have hpos : 0 < 2 ^ k := Nat.two_pow_pos k
  have hmod : offset % 2 ^ k < 2 ^ k := Nat.mod_lt _ hpos
  have hle : offset % 2 ^ k ≤ offset := Nat.mod_le _ _
  have hfit := aligned_word_fits k offset hk hoff
  refine ⟨rfl, rfl, by omega, by omega, _, rfl, ?_, ?_⟩
  · intro i hi
    have hlt : offset - offset % 2 ^ k + (offset % 2 ^ k + i) < 2 ^ 64 := by omega
    have he : offset - offset % 2 ^ k + (offset % 2 ^ k + i) = offset + i := by omega
    simp only [memcpy, load_bytes, ULONGEST_MOD]
    rw [if_pos ⟨Nat.zero_le _, by omega⟩, Nat.sub_zero, Nat.mod_eq_of_lt hlt, he]
  · intro i hi
    simp only [memcpy]
    rw [if_neg (by omega)]

open target_xfer_status in
theorem xfer_partial_word_read_witness :
    ( xfer_partial linux_config (pid_to_ptid 7) counting_tracee (fun _ => 0)
        target_object.TARGET_OBJECT_MEMORY (some (fun _ => 0)) none 4099 16).status
          = TARGET_XFER_OK ∧
    ( xfer_partial linux_config (pid_to_ptid 7) counting_tracee (fun _ => 0)
        target_object.TARGET_OBJECT_MEMORY (some (fun _ => 0)) none 4099 16).xfered_len
          = some (min 16 (2 ^ 3 - 4099 % 2 ^ 3)) ∧
    4099 % 2 ^ 3 + min 16 (2 ^ 3 - 4099 % 2 ^ 3) ≤ 2 ^ 3 ∧
    (1 ≤ 16 → 1 ≤ min 16 (2 ^ 3 - 4099 % 2 ^ 3)) ∧
    ∃ rb', ( xfer_partial linux_config (pid_to_ptid 7) counting_tracee (fun _ => 0)
        target_object.TARGET_OBJECT_MEMORY (some (fun _ => 0)) none 4099 16).readbuf
          = some rb' ∧
      (∀ i, i < min 16 (2 ^ 3 - 4099 % 2 ^ 3) → rb' i = counting_tracee.mem (4099 + i)) ∧
      (∀ i, min 16 (2 ^ 3 - 4099 % 2 ^ 3) ≤ i → rb' i = (fun _ => 0) i) :=
  xfer_partial_word_read linux_config (pid_to_ptid 7) counting_tracee (fun _ => 0)
    (fun _ => 0) 4099 16 3 rfl (by decide) (by decide) (by decide) (Or.inl rfl) rfl

/-! ### The register loop of `sh-linux-nat.c` -/

theorem for_each_register_fold (body : RegState → Int → RegState) (regno : Int)
    (hne : regno ≠ -1) (n : Nat) (s : RegState) :
    (List.range n).foldl
      (fun (s : RegState) (i : Nat) =>
        if s.error.isSome then s
        else if regno = -1 ∨ regno = (i : Int) then body s (i : Int) else s) s
      = if 0 ≤ regno ∧ regno < (n : Int) ∧ s.error = none then body s regno else s := by
  induction n with
  | zero =>
    have : ¬ (0 ≤ regno ∧ regno < ((0 : Nat) : Int) ∧ s.error = none) := by omega
    rw [if_neg this]
    rfl
  | succ m ih =>
    rw [List.range_succ, List.foldl_append, ih]
    simp only [List.foldl_cons, List.foldl_nil]
    by_cases hA : 0 ≤ regno ∧ regno < (m : Int) ∧ s.error = none
    · have hB : 0 ≤ regno ∧ regno < ((m + 1 : Nat) : Int) ∧ s.error = none :=
        ⟨hA.1, by omega, hA.2.2⟩
      have hm : ¬ (regno = -1 ∨ regno = (m : Int)) := by omega
      rw [if_pos hA, if_pos hB, if_neg hm]
      simp
    · rw [if_neg hA]
      by_cases hm : regno = (m : Int)
      · have hm2 : regno = -1 ∨ regno = (m : Int) := Or.inr hm
        rw [if_pos hm2]
        cases he : s.error with
        | none =>
          have hB : 0 ≤ regno ∧ regno < ((m + 1 : Nat) : Int) ∧ (none : Option GdbError) = none :=
            ⟨by omega, by omega, rfl⟩
          rw [if_pos hB]
          simp [hm]
        | some e =>
          have hB : ¬ (0 ≤ regno ∧ regno < ((m + 1 : Nat) : Int)
              ∧ (some e : Option GdbError) = none) := fun h => by simp at h
          rw [if_neg hB]
          simp
      · have hm2 : ¬ (regno = -1 ∨ regno = (m : Int)) := by omega
        have hB : ¬ (0 ≤ regno ∧ regno < ((m + 1 : Nat) : Int) ∧ s.error = none) :=
          fun h => hA ⟨h.1, by omega, h.2.2⟩
        rw [if_neg hm2, if_neg hB]
        simp

theorem for_each_register_single (body : RegState → Int → RegState) (regno : Int)
    (hne : regno ≠ -1) (s : RegState) :
    for_each_register body regno s
      = if 0 ≤ regno ∧ regno < SH_LINUX_NUM_REGS ∧ s.error = none then body s regno else s := by
  unfold for_each_register
  rw [for_each_register_fold body regno hne]
  rfl

/-! ### C4: registers the index map marks unavailable -/

theorem cannot_fetch_of_sentinel (k : AsmPtrace) (regno : Int)
    (h : regmap_entry k regno = some (-1)) : cannot_fetch_register k regno = true := by
  unfold regmap_entry at h
  unfold cannot_fetch_register
  split at h
  · exact absurd h (by simp)
  · simp [List.getD_eq_getElem?_getD, h]

theorem cannot_store_eq_cannot_fetch (k : AsmPtrace) (regno : Int) :
    cannot_store_register k regno = cannot_fetch_register k regno := rfl

theorem regmap_entry_19 (k : AsmPtrace) : regmap_entry k 19 = some (-1) := by
  simp [regmap_entry, regmap]

/-- C4. For every register number whose `regmap` entry is the sentinel `-1`:
`fetch_register` supplies the register cache with the unavailable marker (a
null buffer, not a value), makes no kernel request and raises nothing, and
`store_register` changes nothing at all: no kernel request, no error.
Register 19 is such a number whatever the kernel offsets are, and there the
two target methods do the same as the two helpers. -/
theorem unavailable_register_skipped (k : AsmPtrace) (inferior_ptid : ptid_t) (s : RegState)
    (tid regno : Int) (h : regmap_entry k regno = some (-1)) :
    (fetch_register k s tid regno).regcache regno = RegEntry.unavailable ∧
    (fetch_register k s tid regno).log = s.log ∧
    (fetch_register k s tid regno).error = s.error ∧
    store_register k s tid regno = s ∧
    regmap_entry k 19 = some (-1) ∧
    (s.error = none →
      (sh_linux_fetch_inferior_registers k inferior_ptid s 19).regcache 19
        = RegEntry.unavailable ∧
      (sh_linux_fetch_inferior_registers k inferior_ptid s 19).log = s.log ∧
      (sh_linux_fetch_inferior_registers k inferior_ptid s 19).error = none ∧
      sh_linux_store_inferior_registers k inferior_ptid s 19 = s) := by
  have hc := cannot_fetch_of_sentinel k regno h
  have hc19 := cannot_fetch_of_sentinel k 19 (regmap_entry_19 k)
  have hs : cannot_store_register k regno = true := hc
  have hs19 : cannot_store_register k 19 = true := hc19
  refine ⟨?_, ?_, ?_, ?_, regmap_entry_19 k, ?_⟩
  · simp [fetch_register, hc, regcache_raw_supply]
  · simp [fetch_register, hc]
  · simp [fetch_register, hc]
  · simp [store_register, hs]
  · intro he
    unfold sh_linux_fetch_inferior_registers sh_linux_store_inferior_registers
    rw [for_each_register_single _ 19 (by decide), for_each_register_single _ 19 (by decide)]
    have h19 : (0 : Int) ≤ 19 ∧ (19 : Int) < SH_LINUX_NUM_REGS ∧ s.error = none :=
      ⟨by decide, by decide, he⟩
    rw [if_pos h19, if_pos h19]
    refine ⟨?_, ?_, ?_, ?_⟩
    · simp [fetch_register, hc19, regcache_raw_supply]
    · simp [fetch_register, hc19]
    · simp [fetch_register, hc19, he]
    · simp [store_register, hs19]

theorem unavailable_register_skipped_witness :
    (fetch_register linux_sh_asm_ptrace (one_register_state 19 7) 5 19).regcache 19
      = RegEntry.unavailable ∧
    (fetch_register linux_sh_asm_ptrace (one_register_state 19 7) 5 19).log
      = (one_register_state 19 7).log ∧
    (fetch_register linux_sh_asm_ptrace (one_register_state 19 7) 5 19).error
      = (one_register_state 19 7).error ∧
    store_register linux_sh_asm_ptrace (one_register_state 19 7) 5 19 = one_register_state 19 7 ∧
    regmap_entry linux_sh_asm_ptrace 19 = some (-1) ∧
    ((one_register_state 19 7).error = none →
      (sh_linux_fetch_inferior_registers linux_sh_asm_ptrace (pid_to_ptid 5)
        (one_register_state 19 7) 19).regcache 19 = RegEntry.unavailable ∧
      (sh_linux_fetch_inferior_registers linux_sh_asm_ptrace (pid_to_ptid 5)
        (one_register_state 19 7) 19).log = (one_register_state 19 7).log ∧
      (sh_linux_fetch_inferior_registers linux_sh_asm_ptrace (pid_to_ptid 5)
        (one_register_state 19 7) 19).error = none ∧
      sh_linux_store_inferior_registers linux_sh_asm_ptrace (pid_to_ptid 5)
        (one_register_state 19 7) 19 = one_register_state 19 7) :=
  unavailable_register_skipped linux_sh_asm_ptrace (pid_to_ptid 5) (one_register_state 19 7)
    5 19 (by decide)

/-! ### C5: register numbers outside the valid range -/

theorem register_addr_out_of_range (k : AsmPtrace) (regno : Int) (blockend : Nat)
    (h : regno < 0 ∨ regno ≥ SH_LINUX_NUM_REGS) :
    register_addr k regno blockend
      = Except.error (GdbError.internal_error "Got request for bad register number") := by
  unfold register_addr
  rw [if_pos h]

/-- C5. For every register number outside the valid range (below `-1`, or at
least `SH_LINUX_NUM_REGS`): the fetch and the store method change nothing, so
they make no `PTRACE_PEEKUSER` and no `PTRACE_POKEUSER` request for it;
`fetch_register` and `store_register` called with it make no kernel request
either; `register_addr` raises an internal error for it; and whenever
`register_addr` returns an address, the address was computed from the entry
of the table at that register number. -/
theorem out_of_range_register_rejected (k : AsmPtrace) (inferior_ptid : ptid_t) (s : RegState)
    (tid regno : Int) (blockend : Nat) (h : regno < -1 ∨ regno ≥ SH_LINUX_NUM_REGS) :
    sh_linux_fetch_inferior_registers k inferior_ptid s regno = s ∧
    sh_linux_store_inferior_registers k inferior_ptid s regno = s ∧
    (fetch_register k s tid regno).log = s.log ∧
    (store_register k s tid regno).log = s.log ∧
    register_addr k regno blockend
      = Except.error (GdbError.internal_error "Got request for bad register number") ∧
    (∀ (r : Int) (b addr : Nat), register_addr k r b = Except.ok addr →
      ∃ e, regmap_entry k r = some e ∧
        addr = (((b : Int) + 4 * e) % (CORE_ADDR_MOD : Int)).toNat) := by
  have hne : regno ≠ -1 := by
    unfold SH_LINUX_NUM_REGS at h
    omega
  have hout : ¬ (0 ≤ regno ∧ regno < SH_LINUX_NUM_REGS ∧ s.error = none) := by
    unfold SH_LINUX_NUM_REGS at h ⊢
    omega
  have hbad : regno < 0 ∨ regno ≥ SH_LINUX_NUM_REGS := by
    unfold SH_LINUX_NUM_REGS at h ⊢
    omega
  refine ⟨?_, ?_, ?_, ?_, register_addr_out_of_range k regno blockend hbad, ?_⟩
  · unfold sh_linux_fetch_inferior_registers
    rw [for_each_register_single _ regno hne, if_neg hout]
  · unfold sh_linux_store_inferior_registers
    rw [for_each_register_single _ regno hne, if_neg hout]
  · unfold fetch_register
    rw [register_addr_out_of_range k regno 0 hbad]
    split <;> rfl
  · unfold store_register
    rw [register_addr_out_of_range k regno 0 hbad]
    split <;> rfl
  · intro r b addr hr
    unfold register_addr at hr
    split at hr
    · exact absurd hr (by simp)
    · rename_i hin
      unfold SH_LINUX_NUM_REGS at hin
      have h0 : 0 ≤ r := by omega
      have h40 : r < 40 := by omega
      have hlen : (regmap k).length = 41 := rfl
      have hidx : r.toNat < (regmap k).length := by omega
      refine ⟨(regmap k)[r.toNat], ?_, ?_⟩
      · unfold regmap_entry
        rw [if_neg (by omega)]
        exact List.getElem?_eq_getElem hidx
      · have haddr : register_u_addr k b r = addr := by
          simpa using hr
        rw [← haddr]
        unfold register_u_addr
        rw [if_neg (by omega)]
        simp [List.getD_eq_getElem?_getD, List.getElem?_eq_getElem hidx]

theorem out_of_range_register_rejected_witness :
    sh_linux_fetch_inferior_registers linux_sh_asm_ptrace (pid_to_ptid 5)
      (one_register_state 50 7) 50 = one_register_state 50 7 ∧
    sh_linux_store_inferior_registers linux_sh_asm_ptrace (pid_to_ptid 5)
      (one_register_state 50 7) 50 = one_register_state 50 7 ∧
    (fetch_register linux_sh_asm_ptrace (one_register_state 50 7) 5 50).log
      = (one_register_state 50 7).log ∧
    (store_register linux_sh_asm_ptrace (one_register_state 50 7) 5 50).log
      = (one_register_state 50 7).log ∧
    register_addr linux_sh_asm_ptrace 50 0
      = Except.error (GdbError.internal_error "Got request for bad register number") ∧
    (∀ (r : Int) (b addr : Nat), register_addr linux_sh_asm_ptrace r b = Except.ok addr →
      ∃ e, regmap_entry linux_sh_asm_ptrace r = some e ∧
        addr = (((b : Int) + 4 * e) % (CORE_ADDR_MOD : Int)).toNat) :=
  out_of_range_register_rejected linux_sh_asm_ptrace (pid_to_ptid 5) (one_register_state 50 7)
    5 50 0 (by decide)

/-! ### C6: storing a register and fetching it back -/

/-- Storing then fetching one of the registers 0 to 39 that the map marks
available gives back the stored value, when the kernel accepts both requests:
whatever the cache holds for it when the fetch starts, the fetch supplies the
value the store collected. -/
theorem store_fetch_round_trip (k : AsmPtrace) (inferior_ptid : ptid_t) (s : RegState)
    (regno v : Int) (rc : Int → RegEntry)
    (hr : 0 ≤ regno ∧ regno < SH_LINUX_NUM_REGS)
    (hav : ∃ e, regmap_entry k regno = some e ∧ e ≠ -1)
    (hv : s.regcache regno = RegEntry.value v) (herr : s.error = none)
    (hpoke : s.uarea.poke_errno (sh_linux_tid inferior_ptid) (register_u_addr k 0 regno) = 0)
    (hpeek : s.uarea.peek_errno (sh_linux_tid inferior_ptid) (register_u_addr k 0 regno) = 0) :
    (sh_linux_fetch_inferior_registers k inferior_ptid
      { sh_linux_store_inferior_registers k inferior_ptid s regno with regcache := rc }
      regno).regcache regno = RegEntry.value v := by
  obtain ⟨e, he, hne⟩ := hav
  have h40 : SH_LINUX_NUM_REGS = 40 := rfl
  have hlen : (regmap k).length = 41 := rfl
  have hidx : regno.toNat < (regmap k).length := by omega
  have hget : (regmap k)[regno.toNat]? = some e := by
    unfold regmap_entry at he
    rwa [if_neg (by omega)] at he
  have hcf : cannot_fetch_register k regno = false := by
    unfold cannot_fetch_register
    simp [List.getD_eq_getElem?_getD, hget, hne]
    omega
  have hcs : cannot_store_register k regno = false := hcf
  have haddr : register_addr k regno 0 = Except.ok (register_u_addr k 0 regno) := by
    unfold register_addr
    rw [if_neg (by omega)]
  have hm1 : regno ≠ -1 := by omega
  have hstore : sh_linux_store_inferior_registers k inferior_ptid s regno =
      { s with
        log := s.log ++ [KernelCall.ptrace PtraceRequest.PTRACE_POKEUSER
                  (sh_linux_tid inferior_ptid) (register_u_addr k 0 regno) v],
        uarea := s.uarea.poke (sh_linux_tid inferior_ptid) (register_u_addr k 0 regno) v } := by
    unfold sh_linux_store_inferior_registers
    rw [for_each_register_single _ regno hm1, if_pos ⟨hr.1, hr.2, herr⟩]
    unfold store_register
    simp [hcs, haddr, hpoke, regcache_raw_collect, hv]
  rw [hstore]
  unfold sh_linux_fetch_inferior_registers
  rw [for_each_register_single _ regno hm1, if_pos ⟨hr.1, hr.2, herr⟩]
  unfold fetch_register
  simp [hcf, haddr, UserArea.poke, hpeek, regcache_raw_supply]

theorem store_fetch_round_trip_example :
    (sh_linux_fetch_inferior_registers linux_sh_asm_ptrace (pid_to_ptid 5)
      { sh_linux_store_inferior_registers linux_sh_asm_ptrace (pid_to_ptid 5)
          (one_register_state 16 7) 16 with regcache := fun _ => RegEntry.unknown }
      16).regcache 16 = RegEntry.value 7 :=
  store_fetch_round_trip linux_sh_asm_ptrace (pid_to_ptid 5) (one_register_state 16 7) 16 7
    (fun _ => RegEntry.unknown) (by decide) ⟨16, by decide, by decide⟩ (by decide) rfl rfl rfl

/-- C6 at register 40, the last entry of `regmap` (`REG_FPREG0 + 15`, which is
not the sentinel): the store method makes no request and leaves the user area
alone, and the fetch method that follows makes no request and does not supply
the register, so the value 7 held in the cache before the store is not what
the cache holds after the fetch. -/
theorem register_40_not_transferred :
    regmap_entry linux_sh_asm_ptrace 40 = some 38 ∧
    (one_register_state 40 7).regcache 40 = RegEntry.value 7 ∧
    (sh_linux_store_inferior_registers linux_sh_asm_ptrace (pid_to_ptid 5)
      (one_register_state 40 7) 40).log = [] ∧
    (sh_linux_fetch_inferior_registers linux_sh_asm_ptrace (pid_to_ptid 5)
      { sh_linux_store_inferior_registers linux_sh_asm_ptrace (pid_to_ptid 5)
          (one_register_state 40 7) 40 with regcache := fun _ => RegEntry.unknown }
      40).log = [] ∧
    (sh_linux_fetch_inferior_registers linux_sh_asm_ptrace (pid_to_ptid 5)
      { sh_linux_store_inferior_registers linux_sh_asm_ptrace (pid_to_ptid 5)
          (one_register_state 40 7) 40 with regcache := fun _ => RegEntry.unknown }
      40).regcache 40 = RegEntry.unknown := by
  have hout : ∀ s : RegState,
      ¬ ((0 : Int) ≤ 40 ∧ (40 : Int) < SH_LINUX_NUM_REGS ∧ s.error = none) :=
    fun s h => absurd h.2.1 (by decide)
  refine ⟨by decide, by decide, ?_, ?_, ?_⟩
  · unfold sh_linux_store_inferior_registers
    rw [for_each_register_single _ 40 (by decide), if_neg (hout _)]
    rfl
  · unfold sh_linux_fetch_inferior_registers sh_linux_store_inferior_registers
    rw [for_each_register_single _ 40 (by decide), if_neg (hout _),
      for_each_register_single _ 40 (by decide), if_neg (hout _)]
    rfl
  · unfold sh_linux_fetch_inferior_registers sh_linux_store_inferior_registers
    rw [for_each_register_single _ 40 (by decide), if_neg (hout _)]

/-! ### C7: self-attach -/

/-- C7. `attach` called with the debugger's own process id fails with the
self-attach refusal, makes no system call (in particular no `PT_ATTACH`),
prints nothing and leaves the registry as it was: the target is not pushed,
`attach_flag`, the inferior's process id and `inferior_ptid` keep their
values and no thread is added. -/
theorem attach_self_refused (cfg : Config) (getpid : Int) (exec_file : Option String)
    (target_pid_to_str : ptid_t → String) (kernel_errno : Int) (r : Registry)
    (from_tty : Int) :
    attach cfg getpid exec_file target_pid_to_str kernel_errno r getpid from_tty =
      { registry := r, log := [], stdout := [],
        error := some (GdbError.error "I refuse to debug myself!") } := by
  simp [attach, run_cleanups]

/-! ### C8: the bulk path of `xfer_partial` -/

open target_xfer_status in
/-- C8. On a platform with `PT_IO`, when the kernel accepts the bulk request of
a memory transfer and reports `n` bytes moved, `xfer_partial` stores `n` in
`*xfered_len`, returns `TARGET_XFER_EOF` exactly when `n` is zero and
`TARGET_XFER_OK` exactly when it is not, and so never the I/O error. -/
theorem xfer_partial_bulk_count (cfg : Config) (inferior_ptid : ptid_t) (t : Tracee)
    (buffer : Nat → Nat) (readbuf writebuf : Option (Nat → Nat)) (offset len n : Nat)
    (hcfg : cfg.PT_IO_defined = true)
    (hk : t.pt_io_answer (if writebuf.isSome then PiodOp.PIOD_WRITE_I else PiodOp.PIOD_READ_D)
            (offset % ULONGEST_MOD) (len % ULONGEST_MOD) = PtIoAnswer.moved n) :
    ( xfer_partial cfg inferior_ptid t buffer target_object.TARGET_OBJECT_MEMORY
        readbuf writebuf offset len).xfered_len = some n ∧
    (( xfer_partial cfg inferior_ptid t buffer target_object.TARGET_OBJECT_MEMORY
        readbuf writebuf offset len).status = TARGET_XFER_EOF ↔ n = 0) ∧
    (( xfer_partial cfg inferior_ptid t buffer target_object.TARGET_OBJECT_MEMORY
        readbuf writebuf offset len).status = TARGET_XFER_OK ↔ n ≠ 0) ∧
    ( xfer_partial cfg inferior_ptid t buffer target_object.TARGET_OBJECT_MEMORY
        readbuf writebuf offset len).status ≠ TARGET_XFER_E_IO := by
  unfold xfer_partial
  simp only [hcfg, if_true, hk]
  by_cases hn : n = 0 <;> simp [hn]

open target_xfer_status in
theorem xfer_partial_bulk_count_witness :
    ( xfer_partial bsd_config (pid_to_ptid 7) quiet_tracee (fun _ => 0)
        target_object.TARGET_OBJECT_MEMORY (some (fun _ => 0)) none 4096 16).xfered_len = some 0 ∧
    (( xfer_partial bsd_config (pid_to_ptid 7) quiet_tracee (fun _ => 0)
        target_object.TARGET_OBJECT_MEMORY (some (fun _ => 0)) none 4096 16).status
          = TARGET_XFER_EOF ↔ 0 = 0) ∧
    (( xfer_partial bsd_config (pid_to_ptid 7) quiet_tracee (fun _ => 0)
        target_object.TARGET_OBJECT_MEMORY (some (fun _ => 0)) none 4096 16).status
          = TARGET_XFER_OK ↔ 0 ≠ 0) ∧
    ( xfer_partial bsd_config (pid_to_ptid 7) quiet_tracee (fun _ => 0)
        target_object.TARGET_OBJECT_MEMORY (some (fun _ => 0)) none 4096 16).status
          ≠ TARGET_XFER_E_IO :=
  xfer_partial_bulk_count bsd_config (pid_to_ptid 7) quiet_tracee (fun _ => 0)
    (some (fun _ => 0)) none 4096 16 0 rfl rfl

/-! ### C9: fork events in `wait` -/

/-- What `wait` does after its loop has produced a stopped process `pid` whose
reported event is a fork naming `other`, when the kernel's next `waitpid`
answer is `a`. -/
theorem wait_after_fork (cfg : Config) (inferior_ptid : ptid_t)
    (gps : Nat → Int → Option ptrace_state_t) (state_errno : Int)
    (ourstatus : target_waitstatus) (pid other : Int) (status : HostStatus)
    (a : WaitAnswer) (rest : List WaitAnswer) (log : List KernelCall)
    (hcfg : cfg.PT_GET_PROCESS_STATE_defined = true)
    (hstop : WIFSTOPPED status = true)
    (hfork : gps 0 pid = some ⟨ptrace_event.PTRACE_FORK, other⟩)
    (hother : 0 < other) (ha : a.pid ≠ -1)
    (hsecond : gps 1 other = some ⟨ptrace_event.PTRACE_FORK, pid⟩) :
    wait_after cfg inferior_ptid gps state_errno ourstatus pid status (a :: rest) log =
      some { outcome := WaitOutcome.returned
               (if other = ptid_get_pid inferior_ptid then pid_to_ptid other
                else pid_to_ptid pid)
               { ourstatus with
                 kind := target_waitkind.TARGET_WAITKIND_FORKED,
                 related_pid := if other = ptid_get_pid inferior_ptid then pid_to_ptid pid
                                else pid_to_ptid other },
             log := log ++ [KernelCall.ptrace PtraceRequest.PT_GET_PROCESS_STATE pid 0 0]
                        ++ [KernelCall.waitpid other]
                        ++ [KernelCall.ptrace PtraceRequest.PT_GET_PROCESS_STATE other 0 0],
             rest := rest } := by
  have hw : waitpid a other = other := by
    unfold waitpid
    rw [if_neg ha, if_pos hother]
  have hne : other ≠ -1 := by omega
  unfold wait_after
  simp only [hcfg, hstop, and_self, if_true, hfork, hw, hne, if_false, hsecond, ne_eq,
    not_true_eq_false]
  by_cases hi : other = ptid_get_pid inferior_ptid
  · simp [hi]
  · simp [hi]

/-- C9. Suppose fork events are supported, the loop of `wait` ends with a
stopped process `pid`, and the event `pid` reports is a fork naming the
process `other`. Then whenever `wait` returns, the status is Forked, a second
`waitpid` was made for `other` and it returned, and the event `other` reports
is also a fork naming `pid`; and if one of `pid` and `other` is the process of
the tracked inferior, the identity returned is that of the tracked process and
the related identity in the status is the other process of the pair.
Conversely, once the second `waitpid` returns and `other` reports a fork
naming `pid`, `wait` does return with a Forked status. -/
theorem wait_fork_pairing (cfg : Config) (inferior_ptid ptid : ptid_t)
    (gps : Nat → Int → Option ptrace_state_t) (state_errno : Int)
    (answers : List WaitAnswer) (ourstatus : target_waitstatus) (pid other : Int)
    (status : HostStatus) (rest : List WaitAnswer) (log : List KernelCall)
    (hcfg : cfg.PT_GET_PROCESS_STATE_defined = true)
    (hloop : wait_loop inferior_ptid ptid answers []
      = some (WaitLoopExit.got pid status, rest, log))
    (hstop : WIFSTOPPED status = true)
    (hfork : gps 0 pid = some ⟨ptrace_event.PTRACE_FORK, other⟩)
    (hother : 0 < other) :
    (∀ res rptid st,
      wait cfg inferior_ptid gps state_errno answers ptid ourstatus = some res →
      res.outcome = WaitOutcome.returned rptid st →
      st.kind = target_waitkind.TARGET_WAITKIND_FORKED ∧
      (∃ a rest', rest = a :: rest' ∧ a.pid ≠ -1 ∧
        gps 1 other = some ⟨ptrace_event.PTRACE_FORK, pid⟩ ∧
        res.log = log ++ [KernelCall.ptrace PtraceRequest.PT_GET_PROCESS_STATE pid 0 0]
                      ++ [KernelCall.waitpid other]
                      ++ [KernelCall.ptrace PtraceRequest.PT_GET_PROCESS_STATE other 0 0]) ∧
      (pid = ptid_get_pid inferior_ptid ∨ other = ptid_get_pid inferior_ptid →
        rptid = pid_to_ptid (ptid_get_pid inferior_ptid) ∧
        (pid = ptid_get_pid inferior_ptid → st.related_pid = pid_to_ptid other) ∧
        (other = ptid_get_pid inferior_ptid → st.related_pid = pid_to_ptid pid))) ∧
    (∀ a rest', rest = a :: rest' → a.pid ≠ -1 →
      gps 1 other = some ⟨ptrace_event.PTRACE_FORK, pid⟩ →
      ∃ res rptid st,
        wait cfg inferior_ptid gps state_errno answers ptid ourstatus = some res ∧
        res.outcome = WaitOutcome.returned rptid st ∧
        st.kind = target_waitkind.TARGET_WAITKIND_FORKED) := by
  have hwait : wait cfg inferior_ptid gps state_errno answers ptid ourstatus
      = wait_after cfg inferior_ptid gps state_errno ourstatus pid status rest log := by
    unfold wait
    rw [hloop]
  constructor
  · intro res rptid st hres hout
    rw [hwait] at hres
    cases rest with
    | nil =>
      unfold wait_after at hres
      simp [hcfg, hstop, hfork] at hres
    | cons a rest' =>
      by_cases ha : a.pid = -1
      · have hw : waitpid a other = -1 := by
          unfold waitpid
          rw [if_pos ha]
        unfold wait_after at hres
        simp only [hcfg, hstop, and_self, if_true, hfork, hw] at hres
        simp only [Option.some.injEq] at hres
        rw [← hres] at hout
        simp at hout
      · have hw : waitpid a other = other := by
          unfold waitpid
          rw [if_neg ha, if_pos hother]
        have hne : other ≠ -1 := by omega
        cases hsec : gps 1 other with
        | none =>
          unfold wait_after at hres
          simp only [hcfg, hstop, and_self, if_true, hfork, hw, hne, if_false, hsec] at hres
          simp only [Option.some.injEq] at hres
          rw [← hres] at hout
          simp at hout
        | some pe =>
          by_cases hev : pe.pe_report_event = ptrace_event.PTRACE_FORK
          · by_cases hop : pe.pe_other_pid = pid
            · have hpe : pe = ⟨ptrace_event.PTRACE_FORK, pid⟩ := by
                cases pe
                simp_all
              rw [hpe] at hsec
              rw [wait_after_fork cfg inferior_ptid gps state_errno ourstatus pid other status
                a rest' log hcfg hstop hfork hother ha hsec] at hres
              simp only [Option.some.injEq] at hres
              rw [← hres] at hout
              simp only [WaitOutcome.returned.injEq] at hout
              obtain ⟨h1, h2⟩ := hout
              refine ⟨?_, ⟨a, rest', rfl, ha, congrArg some hpe, ?_⟩, ?_⟩
              · rw [← h2]
              · rw [← hres]
              · intro hor
                rw [← h1, ← h2]
                by_cases hi : other = ptid_get_pid inferior_ptid
                · rw [if_pos hi]
                  refine ⟨by rw [hi], ?_, ?_⟩
                  · intro hp
                    show (if other = ptid_get_pid inferior_ptid then pid_to_ptid pid
                      else pid_to_ptid other) = pid_to_ptid other
                    rw [if_pos hi, hp, hi]
                  · intro _
                    show (if other = ptid_get_pid inferior_ptid then pid_to_ptid pid
                      else pid_to_ptid other) = pid_to_ptid pid
                    rw [if_pos hi]
                · rw [if_neg hi]
                  rcases hor with hp | hp
                  · refine ⟨by rw [hp], ?_, fun h => absurd h hi⟩
                    intro _
                    show (if other = ptid_get_pid inferior_ptid then pid_to_ptid pid
                      else pid_to_ptid other) = pid_to_ptid other
                    rw [if_neg hi]
                  · exact absurd hp hi
            · unfold wait_after at hres
              simp only [hcfg, hstop, and_self, if_true, hfork, hw, hne, if_false, hsec, hev,
                ne_eq, not_true_eq_false, hop, not_false_eq_true] at hres
              simp only [Option.some.injEq] at hres
              rw [← hres] at hout
              simp at hout
          · unfold wait_after at hres
            simp only [hcfg, hstop, and_self, if_true, hfork, hw, hne, if_false, hsec, hev,
              ne_eq, not_false_eq_true] at hres
            simp only [Option.some.injEq] at hres
            rw [← hres] at hout
            simp at hout
  · intro a rest' hrest ha hsec
    rw [hwait, hrest, wait_after_fork cfg inferior_ptid gps state_errno ourstatus pid other
      status a rest' log hcfg hstop hfork hother ha hsec]
    exact ⟨_, _, _, rfl, rfl, rfl⟩

theorem wait_fork_pairing_witness :
    (∀ res rptid st,
      wait bsd_config (pid_to_ptid 100) fork_states 0 fork_answers minus_one_ptid blank_status
        = some res →
      res.outcome = WaitOutcome.returned rptid st →
      st.kind = target_waitkind.TARGET_WAITKIND_FORKED ∧
      (∃ a rest', [(⟨100, HostStatus.stopped 5, 0⟩ : WaitAnswer)] = a :: rest' ∧ a.pid ≠ -1 ∧
        fork_states 1 100 = some ⟨ptrace_event.PTRACE_FORK, 200⟩ ∧
        res.log = [KernelCall.waitpid (-1)]
                      ++ [KernelCall.ptrace PtraceRequest.PT_GET_PROCESS_STATE 200 0 0]
                      ++ [KernelCall.waitpid 100]
                      ++ [KernelCall.ptrace PtraceRequest.PT_GET_PROCESS_STATE 100 0 0]) ∧
      (200 = ptid_get_pid (pid_to_ptid 100) ∨ 100 = ptid_get_pid (pid_to_ptid 100) →
        rptid = pid_to_ptid (ptid_get_pid (pid_to_ptid 100)) ∧
        (200 = ptid_get_pid (pid_to_ptid 100) → st.related_pid = pid_to_ptid 100) ∧
        (100 = ptid_get_pid (pid_to_ptid 100) → st.related_pid = pid_to_ptid 200))) ∧
    (∀ a rest', [(⟨100, HostStatus.stopped 5, 0⟩ : WaitAnswer)] = a :: rest' → a.pid ≠ -1 →
      fork_states 1 100 = some ⟨ptrace_event.PTRACE_FORK, 200⟩ →
      ∃ res rptid st,
        wait bsd_config (pid_to_ptid 100) fork_states 0 fork_answers minus_one_ptid blank_status
          = some res ∧
        res.outcome = WaitOutcome.returned rptid st ∧
        st.kind = target_waitkind.TARGET_WAITKIND_FORKED) :=
  wait_fork_pairing bsd_config (pid_to_ptid 100) minus_one_ptid fork_states 0 fork_answers
    blank_status 200 100 (HostStatus.stopped 19) [⟨100, HostStatus.stopped 5, 0⟩]
    [KernelCall.waitpid (-1)] rfl (by decide) rfl (by decide) (by decide)

/-- The fork of `fork_states` and `fork_answers` as `wait` reports it: the
tracked process 100 is returned and the child 200 is the related identity. -/
theorem wait_fork_example :
    (wait bsd_config (pid_to_ptid 100) fork_states 0 fork_answers minus_one_ptid
      blank_status).map (fun res => res.outcome)
      = some (WaitOutcome.returned (pid_to_ptid 100)
          { blank_status with kind := target_waitkind.TARGET_WAITKIND_FORKED,
                              related_pid := pid_to_ptid 200 }) := by
  decide

/-! ### C10: the request kind of `resume` -/

/-- C10, as stated, fails: with syscall interception enabled and the step flag
set, `resume` asks for `PT_STEP`, not for `PT_SYSCALL`. -/
theorem resume_syscall_preference_counterexample :
    (0 : Int) < 1 ∧
    (resume (pid_to_ptid 100) 1 0 (pid_to_ptid 100) 1 0).log
      = [KernelCall.ptrace PtraceRequest.PT_STEP 100 1 0] ∧
    (resume (pid_to_ptid 100) 1 0 (pid_to_ptid 100) 1 0).log
      ≠ [KernelCall.ptrace PtraceRequest.PT_SYSCALL 100 1 0] := by
  decide

/-- C10, amended. `resume` makes exactly one `ptrace` request, and for every
combination of the step flag and the syscall-interception setting its kind is:
single-instruction-step whenever the step flag is set; otherwise syscall-stop
when syscall interception is enabled (`catch_syscall_enabled () > 0`) and
continue when it is not. -/
theorem resume_request_kind (inferior_ptid : ptid_t) (catch_syscall_enabled kernel_errno : Int)
    (ptid : ptid_t) (step host_signal : Int) :
    (resume inferior_ptid catch_syscall_enabled kernel_errno ptid step host_signal).log =
      [KernelCall.ptrace
        (if step ≠ 0 then PtraceRequest.PT_STEP
         else if catch_syscall_enabled > 0 then PtraceRequest.PT_SYSCALL
         else PtraceRequest.PT_CONTINUE)
        (if ptid = minus_one_ptid then ptid_get_pid inferior_ptid else get_ptrace_pid ptid)
        1 host_signal] := by
  unfold resume ptid_equal
  by_cases h1 : minus_one_ptid = ptid
  · subst h1
    by_cases h2 : kernel_errno = 0 <;> simp [h2]
  · have h1b : ¬ ptid = minus_one_ptid := fun h => h1 h.symm
    by_cases h2 : kernel_errno = 0 <;> simp [h1, h1b, h2]

/-! ### C11: filling one register of a register set -/

/-- A loop over `0 .. n - 1` whose body does something at one index only. -/
theorem foldl_range_single {α : Type} (f : α → Nat → α) (r : Nat)
    (hf : ∀ a i, i ≠ r → f a i = a) (n : Nat) (a : α) :
    (List.range n).foldl f a = if r < n then f a r else a := by
  induction n with
  | zero => simp
  | succ m ih =>
    rw [List.range_succ, List.foldl_append, ih]
    simp only [List.foldl_cons, List.foldl_nil]
    by_cases h1 : r < m
    · rw [if_pos h1, if_pos (by omega), hf _ m (by omega)]
    · rw [if_neg h1]
      by_cases h2 : r = m
      · rw [if_pos (by omega), h2]
      · rw [if_neg (by omega), hf _ m (fun h => h2 h.symm)]

/-- What `fill_gregset` does for one register number: it writes the slot
`regmap[regno]` with the cache value of `regno` when `regno` is one of the
general registers 0 to 22 and its entry is not the sentinel, and nothing
otherwise. -/
theorem fill_gregset_single (k : AsmPtrace) (regcache : Int → RegEntry) (regp : RegSet)
    (regno : Int) (hne : regno ≠ -1) :
    fill_gregset k regcache regp regno =
      if 0 ≤ regno ∧ regno < 23 ∧ (regmap k).getD regno.toNat 0 ≠ -1 then
        regp.set ((regmap k).getD regno.toNat 0) (regcache_raw_collect regcache regno)
      else regp := by
  unfold fill_gregset
  rw [foldl_range_single _ regno.toNat]
  · by_cases h : 0 ≤ regno ∧ regno < 23
    · have e : ((regno.toNat : Nat) : Int) = regno := Int.toNat_of_nonneg h.1
      have hlt : regno.toNat < 23 := by omega
      rw [if_pos hlt, e]
      generalize (regmap k).getD regno.toNat 0 = entry
      by_cases hs : entry = -1
      · rw [if_neg (fun hc => hc.1 hs), if_neg (fun hc => hc.2.2 hs)]
      · rw [if_pos ⟨hs, Or.inr rfl⟩, if_pos ⟨h.1, h.2, hs⟩]
    · have hcond : ¬ (0 ≤ regno ∧ regno < 23 ∧ (regmap k).getD regno.toNat 0 ≠ -1) :=
        fun hc => h ⟨hc.1, hc.2.1⟩
      rw [if_neg hcond]
      by_cases hlt : regno.toNat < 23
      · have hneq : ¬ (regno = -1 ∨ regno = ((regno.toNat : Nat) : Int)) := by omega
        rw [if_pos hlt, if_neg (fun hc => hneq hc.2)]
      · rw [if_neg hlt]
  · intro a i hi
    have hneq : ¬ (regno = -1 ∨ regno = (i : Int)) := by omega
    rw [if_neg (fun hc => hneq hc.2)]

/-- What `fill_fpregset` does for one register number: for `regno` from 0 to
15 it writes slot `regno` with the cache value of register `25 + regno`; for
`FPSCR_REGNUM` and `FPUL_REGNUM` it writes the slot of that register; for
every other number, 25 to 40 included, it writes nothing. -/
theorem fill_fpregset_single (k : AsmPtrace) (regcache : Int → RegEntry) (regp : RegSet)
    (regno : Int) (hne : regno ≠ -1) :
    fill_fpregset k regcache regp regno =
      if 0 ≤ regno ∧ regno < 16 then
        regp.set regno (regcache_raw_collect regcache (25 + regno))
      else if regno = FPSCR_REGNUM then
        regp.set (k.REG_FPSCR - k.REG_FPREG0) (regcache_raw_collect regcache FPSCR_REGNUM)
      else if regno = FPUL_REGNUM then
        regp.set (k.REG_FPUL - k.REG_FPREG0) (regcache_raw_collect regcache FPUL_REGNUM)
      else regp := by
  unfold fill_fpregset
  simp only [hne, false_or]
  rw [foldl_range_single _ regno.toNat]
  · by_cases h : 0 ≤ regno ∧ regno < 16
    · have e : ((regno.toNat : Nat) : Int) = regno := Int.toNat_of_nonneg h.1
      have hlt : regno.toNat < 16 := by omega
      have h24 : ¬ regno = FPSCR_REGNUM := by unfold FPSCR_REGNUM; omega
      have h23 : ¬ regno = FPUL_REGNUM := by unfold FPUL_REGNUM; omega
      rw [if_pos hlt, if_pos h, if_neg h24, if_neg h23]
      simp [e]
    · rw [if_neg h]
      have hstay : (if regno.toNat < 16 then
          (if regno = ((regno.toNat : Nat) : Int) then
            regp.set ((regno.toNat : Nat) : Int)
              (regcache_raw_collect regcache (25 + ((regno.toNat : Nat) : Int)))
           else regp)
          else regp) = regp := by
        by_cases hlt : regno.toNat < 16
        · have hneq : ¬ (regno = ((regno.toNat : Nat) : Int)) := by omega
          rw [if_pos hlt, if_neg hneq]
        · rw [if_neg hlt]
      rw [hstay]
      by_cases h24 : regno = FPSCR_REGNUM
      · have h23 : ¬ regno = FPUL_REGNUM := by
          rw [h24]; decide
        rw [if_pos h24, if_neg h23, if_pos h24]
      · rw [if_neg h24, if_neg h24]
  · intro a i hi
    have hneq : ¬ (regno = (i : Int)) := by omega
    simp [hneq]

/-- C11 at the floating-point registers. With the kernel offsets of SuperH
GNU/Linux, a cache holding `100 + r` for register `r` and a register set of
zeros: `fill_fpregset` called for register 25 (`fr0`) writes nothing, so slot
0, the slot of `fr0`, keeps 0 instead of receiving 125; and called for
register 3 (the general register `r3`) it writes slot 3, the slot of `fr3`,
with 128, the cache value of register 28. `fill_gregset` called for register
3 does write the slot of register 3 with its cache value. -/
theorem fill_fpregset_wrong_register :
    regcache_raw_collect numbered_cache 25 = 125 ∧
    fill_fpregset linux_sh_asm_ptrace numbered_cache zero_regset 25 0 = 0 ∧
    fill_fpregset linux_sh_asm_ptrace numbered_cache zero_regset 40 15 = 0 ∧
    fill_fpregset linux_sh_asm_ptrace numbered_cache zero_regset 3 3 = 128 ∧
    fill_gregset linux_sh_asm_ptrace numbered_cache zero_regset 3 3 = 103 := by
  decide

/-! ### C12: the registers the 'all' loop visits -/

/-- Called with `-1`, the loop applies its body to the numbers 0 to 39 in
order, until an error. -/
theorem for_each_register_all (body : RegState → Int → RegState) (s : RegState) :
    for_each_register body (-1) s =
      (List.range 40).foldl
        (fun (s : RegState) (i : Nat) => if s.error.isSome then s else body s (i : Int)) s := by
  unfold for_each_register
  simp only [true_or, if_true]
  rfl

set_option maxRecDepth 100000 in
/-- C12 at register 40. `regmap` has the 41 entries 0 to 40 and entry 40
(`REG_FPREG0 + 15`, user-area address 152 with the SuperH GNU/Linux offsets)
is not the sentinel, yet the fetch and the store method called with `-1` stop
after register 39: the fetch makes 39 `PTRACE_PEEKUSER` requests, one of them
for register 39 at address 148 and none at address 152, and leaves the cache
entry of register 40 as it was although it has supplied register 39 from the
user area; the store makes 39 `PTRACE_POKEUSER` requests, none at address
152. -/
theorem all_registers_loop_misses_40 :
    (regmap linux_sh_asm_ptrace).length = 41 ∧
    regmap_entry linux_sh_asm_ptrace 40 = some 38 ∧
    register_u_addr linux_sh_asm_ptrace 0 40 = 152 ∧
    (sh_linux_fetch_inferior_registers linux_sh_asm_ptrace (pid_to_ptid 5)
      (one_register_state 40 7) (-1)).error = none ∧
    (sh_linux_fetch_inferior_registers linux_sh_asm_ptrace (pid_to_ptid 5)
      (one_register_state 40 7) (-1)).log.length = 39 ∧
    KernelCall.ptrace PtraceRequest.PTRACE_PEEKUSER 5 148 0 ∈
      (sh_linux_fetch_inferior_registers linux_sh_asm_ptrace (pid_to_ptid 5)
        (one_register_state 40 7) (-1)).log ∧
    KernelCall.ptrace PtraceRequest.PTRACE_PEEKUSER 5 152 0 ∉
      (sh_linux_fetch_inferior_registers linux_sh_asm_ptrace (pid_to_ptid 5)
        (one_register_state 40 7) (-1)).log ∧
    (sh_linux_fetch_inferior_registers linux_sh_asm_ptrace (pid_to_ptid 5)
      (one_register_state 40 7) (-1)).regcache 39 = RegEntry.value 0 ∧
    (sh_linux_fetch_inferior_registers linux_sh_asm_ptrace (pid_to_ptid 5)
      (one_register_state 40 7) (-1)).regcache 40 = RegEntry.value 7 ∧
    (sh_linux_store_inferior_registers linux_sh_asm_ptrace (pid_to_ptid 5)
      (one_register_state 40 7) (-1)).log.length = 39 ∧
    KernelCall.ptrace PtraceRequest.PTRACE_POKEUSER 5 152 7 ∉
      (sh_linux_store_inferior_registers linux_sh_asm_ptrace (pid_to_ptid 5)
        (one_register_state 40 7) (-1)).log ∧
    (sh_linux_store_inferior_registers linux_sh_asm_ptrace (pid_to_ptid 5)
      (one_register_state 40 7) (-1)).uarea.word 5 152 = 0 := by
  decide

/-! ### C13: a failed detach -/

theorem detach_success_clears_identity (r : Registry) :
    (detach_success r).inferior_ptid = null_ptid := by
  unfold detach_success maybe_unpush_target detach_inferior
  simp only
  split_ifs <;> rfl

/-- C13. For every registry and signal argument: if detaching is not supported
on the platform or the kernel's `PT_DETACH` request fails, `detach` raises an
error and the registry is exactly what it was (`inferior_ptid` is not
cleared, the inferior keeps its process and its threads, the target stays
pushed); the registry differs from what it was only if the request was made
and succeeded; and when the request succeeds `detach` raises nothing and the
registry is the one `detach_success` leaves, with `inferior_ptid` cleared. -/
theorem detach_failure_atomic (cfg : Config) (announce : List String) (kernel_errno : Int)
    (r : Registry) (args : Option Int) :
    (cfg.PT_DETACH_defined = false ∨ kernel_errno ≠ 0 →
      (detach cfg announce kernel_errno r args).error ≠ none ∧
      (detach cfg announce kernel_errno r args).registry = r) ∧
    ((detach cfg announce kernel_errno r args).registry ≠ r →
      cfg.PT_DETACH_defined = true ∧ kernel_errno = 0) ∧
    (cfg.PT_DETACH_defined = true ∧ kernel_errno = 0 →
      (detach cfg announce kernel_errno r args).error = none ∧
      (detach cfg announce kernel_errno r args).registry = detach_success r ∧
      (detach cfg announce kernel_errno r args).registry.inferior_ptid = null_ptid) := by
  unfold detach
  cases hc : cfg.PT_DETACH_defined with
  | false => simp
  | true =>
    by_cases he : kernel_errno = 0
    · simp [he, detach_success_clears_identity]
    · simp [he]

theorem detach_failure_atomic_witness :
    ((detach bsd_config [] 3 attached_registry (some 15)).error ≠ none ∧
      (detach bsd_config [] 3 attached_registry (some 15)).registry = attached_registry) ∧
    ((detach bsd_config [] 0 attached_registry none).error = none ∧
      (detach bsd_config [] 0 attached_registry none).registry
        = detach_success attached_registry ∧
      (detach bsd_config [] 0 attached_registry none).registry.inferior_ptid = null_ptid) :=
  ⟨(detach_failure_atomic bsd_config [] 3 attached_registry (some 15)).1 (Or.inr (by decide)),
   (detach_failure_atomic bsd_config [] 0 attached_registry none).2.2 ⟨rfl, rfl⟩⟩

/-! ### C14: the id passed to the kernel -/

/-- A property of the state that every body application keeps is kept by the
register loop. -/
theorem for_each_register_invariant (P : RegState → Prop) (body : RegState → Int → RegState)
    (regno : Int) (hbody : ∀ s i, P s → P (body s i)) (s : RegState) (hs : P s) :
    P (for_each_register body regno s) := by
  unfold for_each_register
  generalize List.range SH_LINUX_NUM_REGS.toNat = l
  induction l generalizing s with
  | nil => exact hs
  | cons i l ih =>
    rw [List.foldl_cons]
    apply ih
    split_ifs
    · exact hs
    · exact hbody s _ hs
    · exact hs

theorem wrap_int_of_fits (x : Int) (h : -2 ^ 31 ≤ x ∧ x < 2 ^ 31) : wrap_int x = x := by
  unfold wrap_int
  omega

/-- C14, as stated, fails: for the identity of process 100 whose
lightweight-thread id is `2 ^ 32`, the lightweight-thread id is not zero, yet
`get_ptrace_pid` returns the process id 100, because the id is narrowed to
`pid_t` before it is tested; and for the lightweight-thread id `2 ^ 32 + 5` it
returns 5. -/
theorem get_ptrace_pid_narrowing_counterexample :
    ptid_get_lwp wide_ptid ≠ 0 ∧
    get_ptrace_pid wide_ptid = 100 ∧
    get_ptrace_pid wide_ptid ≠ ptid_get_lwp wide_ptid ∧
    get_ptrace_pid ⟨100, 4294967301, 0⟩ = 5 := by
  decide

/-- C14, amended. For every identity, `get_ptrace_pid` narrows the
lightweight-thread id to `pid_t` (a 32-bit `int`) and returns the narrowed id
when it is not zero and the process id otherwise; so for every identity whose
lightweight-thread id fits in `pid_t` it returns the lightweight-thread id
when it is not zero and the process id otherwise. The thread id the SuperH
fetch and store methods compute from the current identity is
`get_ptrace_pid` of that identity, and every request these methods add to
the log is a `PTRACE_PEEKUSER`, respectively a `PTRACE_POKEUSER`, for that
id. -/
theorem ptrace_pid_rule (k : AsmPtrace) (ptid : ptid_t) (s : RegState) (regno : Int) :
    get_ptrace_pid ptid
      = (if wrap_int (ptid_get_lwp ptid) ≠ 0 then wrap_int (ptid_get_lwp ptid)
         else ptid_get_pid ptid) ∧
    (-2 ^ 31 ≤ ptid_get_lwp ptid ∧ ptid_get_lwp ptid < 2 ^ 31 →
      get_ptrace_pid ptid
        = (if ptid_get_lwp ptid ≠ 0 then ptid_get_lwp ptid else ptid_get_pid ptid)) ∧
    sh_linux_tid ptid = get_ptrace_pid ptid ∧
    (∀ c, c ∈ (sh_linux_fetch_inferior_registers k ptid s regno).log →
      c ∈ s.log ∨
      ∃ addr, c = KernelCall.ptrace PtraceRequest.PTRACE_PEEKUSER (get_ptrace_pid ptid) addr 0) ∧
    (∀ c, c ∈ (sh_linux_store_inferior_registers k ptid s regno).log →
      c ∈ s.log ∨
      ∃ addr val,
        c = KernelCall.ptrace PtraceRequest.PTRACE_POKEUSER (get_ptrace_pid ptid) addr val) := by
  have htid : sh_linux_tid ptid = get_ptrace_pid ptid := rfl
  have hrule : get_ptrace_pid ptid
      = (if wrap_int (ptid_get_lwp ptid) ≠ 0 then wrap_int (ptid_get_lwp ptid)
         else ptid_get_pid ptid) := by
    unfold get_ptrace_pid
    by_cases h : wrap_int (ptid_get_lwp ptid) = 0 <;> simp [h]
  refine ⟨hrule, ?_, htid, ?_, ?_⟩
  · intro hfit
    rw [hrule, wrap_int_of_fits _ hfit]
  · unfold sh_linux_fetch_inferior_registers
    rw [htid]
    apply for_each_register_invariant
      (fun s' => ∀ c, c ∈ s'.log → c ∈ s.log ∨
        ∃ addr, c = KernelCall.ptrace PtraceRequest.PTRACE_PEEKUSER (get_ptrace_pid ptid) addr 0)
    · intro s' i hs' c hc
      unfold fetch_register at hc
      split at hc
      · exact hs' c hc
      · split at hc
        · exact hs' c hc
        · rename_i addr _
          have hmem : c ∈ s'.log ++
              [KernelCall.ptrace PtraceRequest.PTRACE_PEEKUSER (get_ptrace_pid ptid) addr 0] := by
            split at hc <;> exact hc
          rcases List.mem_append.mp hmem with h | h
          · exact hs' c h
          · exact Or.inr ⟨addr, List.mem_singleton.mp h⟩
    · intro c hc
      exact Or.inl hc
  · unfold sh_linux_store_inferior_registers
    rw [htid]
    apply for_each_register_invariant
      (fun s' => ∀ c, c ∈ s'.log → c ∈ s.log ∨
        ∃ addr val,
          c = KernelCall.ptrace PtraceRequest.PTRACE_POKEUSER (get_ptrace_pid ptid) addr val)
    · intro s' i hs' c hc
      unfold store_register at hc
      split at hc
      · exact hs' c hc
      · split at hc
        · exact hs' c hc
        · rename_i addr _
          have hmem : c ∈ s'.log ++
              [KernelCall.ptrace PtraceRequest.PTRACE_POKEUSER (get_ptrace_pid ptid) addr
                (regcache_raw_collect s'.regcache i)] := by
            split at hc <;> exact hc
          rcases List.mem_append.mp hmem with h | h
          · exact hs' c h
          · exact Or.inr ⟨addr, _, List.mem_singleton.mp h⟩
    · intro c hc
      exact Or.inl hc

theorem ptrace_pid_rule_witness :
    (-2 ^ 31 ≤ ptid_get_lwp threaded_ptid ∧ ptid_get_lwp threaded_ptid < 2 ^ 31) ∧
    get_ptrace_pid threaded_ptid
      = (if ptid_get_lwp threaded_ptid ≠ 0 then ptid_get_lwp threaded_ptid
         else ptid_get_pid threaded_ptid) ∧
    sh_linux_tid threaded_ptid = get_ptrace_pid threaded_ptid :=
  ⟨by decide,
   (ptrace_pid_rule linux_sh_asm_ptrace threaded_ptid (one_register_state 16 7) 16).2.1
     (by decide),
   (ptrace_pid_rule linux_sh_asm_ptrace threaded_ptid (one_register_state 16 7) 16).2.2.1⟩

/-- For thread 200 of process 100 the id is 200, for a lightweight-thread id
of `2 ^ 32` the SuperH methods use the process id like `get_ptrace_pid`, and
fetching register 16 (`pc`, user-area address 64) asks the kernel about
thread 200. -/
theorem ptrace_pid_rule_example :
    get_ptrace_pid threaded_ptid = 200 ∧
    get_ptrace_pid (pid_to_ptid 100) = 100 ∧
    sh_linux_tid wide_ptid = 100 ∧
    (sh_linux_fetch_inferior_registers linux_sh_asm_ptrace threaded_ptid
      (one_register_state 16 7) 16).log
      = [KernelCall.ptrace PtraceRequest.PTRACE_PEEKUSER 200 64 0] ∧
    (sh_linux_store_inferior_registers linux_sh_asm_ptrace threaded_ptid
      (one_register_state 16 7) 16).log
      = [KernelCall.ptrace PtraceRequest.PTRACE_POKEUSER 200 64 7] := by
  refine ⟨by decide, by decide, by decide, ?_, ?_⟩
  · unfold sh_linux_fetch_inferior_registers
    rw [for_each_register_single _ 16 (by decide)]
    decide
  · unfold sh_linux_store_inferior_registers
    rw [for_each_register_single _ 16 (by decide)]
    decide

/-! ### C15: a bulk request the kernel rejects -/

/-- The word-at-a-time block asks the kernel for a word, to read it or to write
it, whenever the caller gave a buffer. -/
theorem xfer_memory_word_makes_request (cfg : Config) (pid : Int) (t : Tracee)
    (buffer : Nat → Nat) (readbuf writebuf : Option (Nat → Nat)) (offset len : Nat)
    (log : List KernelCall) (hbuf : readbuf.isSome = true ∨ writebuf.isSome = true) :
    ∃ c, c ∈ (xfer_memory_word cfg pid t buffer readbuf writebuf offset len log).log ∧
      ((∃ addr, c = KernelCall.ptrace PtraceRequest.PT_READ_I pid addr 0) ∨
       (∃ addr word, c = KernelCall.ptrace_word PtraceRequest.PT_WRITE_D pid addr word)) := by
  unfold xfer_memory_word
  lift_lets
  extract_lets size offset1 len1 rounded_offset partial_len0 partial_len pos
  cases writebuf with
  | some wb =>
    simp -zeta only
    lift_lets
    extract_lets need_word buffer1 log1 buffer2 log2 log3
    have hmem2 : KernelCall.ptrace_word PtraceRequest.PT_WRITE_D pid rounded_offset
        (word_bytes size buffer2) ∈ log2 := by simp [log2]
    have hmem3 : KernelCall.ptrace_word PtraceRequest.PT_WRITE_D pid rounded_offset
        (word_bytes size buffer2) ∈ log3 := by simp [log3, hmem2]
    refine ⟨_, ?_, Or.inr ⟨rounded_offset, word_bytes size buffer2, rfl⟩⟩
    by_cases hd : t.write_d_errno rounded_offset = 0
    · simp only [hd, ne_eq, not_true_eq_false, if_false]
      cases readbuf with
      | none => exact hmem2
      | some rb =>
        simp only
        split_ifs <;> simp [hmem2]
    · by_cases hi : t.write_i_errno rounded_offset = 0
      · simp only [hd, hi, ne_eq, not_false_eq_true, not_true_eq_false, if_true, if_false]
        cases readbuf with
        | none => exact hmem3
        | some rb =>
          simp only
          split_ifs <;> simp [hmem3]
      · simp only [hd, hi, ne_eq, not_false_eq_true, if_true]
        exact hmem3
  | none =>
    cases readbuf with
    | none => simp at hbuf
    | some rb =>
      simp only
      refine ⟨KernelCall.ptrace PtraceRequest.PT_READ_I pid rounded_offset 0, ?_,
        Or.inl ⟨rounded_offset, rfl⟩⟩
      split_ifs <;> simp

/-- C15, as stated, fails: when the kernel rejects the bulk request with `EIO`
(5), `xfer_partial` makes no word request at all and returns
`TARGET_XFER_EOF` to the caller, although every word request would have
succeeded. -/
theorem bulk_failure_fallback_counterexample :
    bsd_config.PT_IO_defined = true ∧
    refusing_tracee.pt_io_answer PiodOp.PIOD_READ_D 4096 4 = PtIoAnswer.failed 5 ∧
    ( xfer_partial bsd_config (pid_to_ptid 7) refusing_tracee (fun _ => 0)
        target_object.TARGET_OBJECT_MEMORY (some (fun _ => 0)) none 4096 4).log
      = [KernelCall.ptrace_io 7 PiodOp.PIOD_READ_D 4096 4] ∧
    ( xfer_partial bsd_config (pid_to_ptid 7) refusing_tracee (fun _ => 0)
        target_object.TARGET_OBJECT_MEMORY (some (fun _ => 0)) none 4096 4).status
      = target_xfer_status.TARGET_XFER_EOF ∧
    ( xfer_partial bsd_config (pid_to_ptid 7) refusing_tracee (fun _ => 0)
        target_object.TARGET_OBJECT_MEMORY (some (fun _ => 0)) none 4096 4).xfered_len
      = none := by
  decide

open target_xfer_status in
/-- C15, amended. For a memory transfer on a platform with `PT_IO` whose bulk
request the kernel rejects: when the error code is `EINVAL`, `xfer_partial`
does what the word-at-a-time block does after the bulk request, and that
block asks the kernel for a word whenever the caller gave a buffer; when the
error code is anything else, `xfer_partial` makes no further request and
returns `TARGET_XFER_EOF` with nothing transferred and the tracee's memory
untouched. -/
theorem xfer_partial_bulk_rejected (cfg : Config) (inferior_ptid : ptid_t) (t : Tracee)
    (buffer : Nat → Nat) (readbuf writebuf : Option (Nat → Nat)) (offset len : Nat)
    (errno : Int) (hcfg : cfg.PT_IO_defined = true)
    (hfail : t.pt_io_answer
        (if writebuf.isSome then PiodOp.PIOD_WRITE_I else PiodOp.PIOD_READ_D)
        (offset % ULONGEST_MOD) (len % ULONGEST_MOD) = PtIoAnswer.failed errno) :
    (errno = EINVAL →
      xfer_partial cfg inferior_ptid t buffer target_object.TARGET_OBJECT_MEMORY
          readbuf writebuf offset len
        = xfer_memory_word cfg (ptid_get_pid inferior_ptid) t buffer readbuf writebuf
            offset len
            [KernelCall.ptrace_io (ptid_get_pid inferior_ptid)
              (if writebuf.isSome then PiodOp.PIOD_WRITE_I else PiodOp.PIOD_READ_D)
              (offset % ULONGEST_MOD) (len % ULONGEST_MOD)] ∧
      (readbuf.isSome = true ∨ writebuf.isSome = true →
        ∃ c, c ∈ ( xfer_partial cfg inferior_ptid t buffer target_object.TARGET_OBJECT_MEMORY
            readbuf writebuf offset len).log ∧
          ((∃ addr, c = KernelCall.ptrace PtraceRequest.PT_READ_I
              (ptid_get_pid inferior_ptid) addr 0) ∨
           (∃ addr word, c = KernelCall.ptrace_word PtraceRequest.PT_WRITE_D
              (ptid_get_pid inferior_ptid) addr word)))) ∧
    (errno ≠ EINVAL →
      ( xfer_partial cfg inferior_ptid t buffer target_object.TARGET_OBJECT_MEMORY
          readbuf writebuf offset len).status = TARGET_XFER_EOF ∧
      ( xfer_partial cfg inferior_ptid t buffer target_object.TARGET_OBJECT_MEMORY
          readbuf writebuf offset len).xfered_len = none ∧
      ( xfer_partial cfg inferior_ptid t buffer target_object.TARGET_OBJECT_MEMORY
          readbuf writebuf offset len).log
        = [KernelCall.ptrace_io (ptid_get_pid inferior_ptid)
            (if writebuf.isSome then PiodOp.PIOD_WRITE_I else PiodOp.PIOD_READ_D)
            (offset % ULONGEST_MOD) (len % ULONGEST_MOD)] ∧
      ( xfer_partial cfg inferior_ptid t buffer target_object.TARGET_OBJECT_MEMORY
          readbuf writebuf offset len).mem = t.mem) := by
  constructor
  · intro he
    have hx : xfer_partial cfg inferior_ptid t buffer target_object.TARGET_OBJECT_MEMORY
          readbuf writebuf offset len
        = xfer_memory_word cfg (ptid_get_pid inferior_ptid) t buffer readbuf writebuf
            offset len
            [KernelCall.ptrace_io (ptid_get_pid inferior_ptid)
              (if writebuf.isSome then PiodOp.PIOD_WRITE_I else PiodOp.PIOD_READ_D)
              (offset % ULONGEST_MOD) (len % ULONGEST_MOD)] := by
      unfold xfer_partial
      simp only [hcfg, if_true, hfail, he, ne_eq, not_true_eq_false, if_false]
    refine ⟨hx, ?_⟩
    intro hbuf
    rw [hx]
    exact xfer_memory_word_makes_request cfg _ t buffer readbuf writebuf offset len _ hbuf
  · intro he
    unfold xfer_partial
    simp [hcfg, hfail, he]

open target_xfer_status in
theorem xfer_partial_bulk_rejected_witness :
    ( xfer_partial bsd_config (pid_to_ptid 7) counting_tracee (fun _ => 0)
          target_object.TARGET_OBJECT_MEMORY (some (fun _ => 0)) none 4099 16
        = xfer_memory_word bsd_config (ptid_get_pid (pid_to_ptid 7)) counting_tracee
            (fun _ => 0) (some (fun _ => 0)) none 4099 16
            [KernelCall.ptrace_io (ptid_get_pid (pid_to_ptid 7))
              (if (none : Option (Nat → Nat)).isSome then PiodOp.PIOD_WRITE_I
               else PiodOp.PIOD_READ_D)
              (4099 % ULONGEST_MOD) (16 % ULONGEST_MOD)] ∧
      ((some (fun _ => 0) : Option (Nat → Nat)).isSome = true
          ∨ (none : Option (Nat → Nat)).isSome = true →
        ∃ c, c ∈ ( xfer_partial bsd_config (pid_to_ptid 7) counting_tracee (fun _ => 0)
            target_object.TARGET_OBJECT_MEMORY (some (fun _ => 0)) none 4099 16).log ∧
          ((∃ addr, c = KernelCall.ptrace PtraceRequest.PT_READ_I
              (ptid_get_pid (pid_to_ptid 7)) addr 0) ∨
           (∃ addr word, c = KernelCall.ptrace_word PtraceRequest.PT_WRITE_D
              (ptid_get_pid (pid_to_ptid 7)) addr word)))) ∧
    (( xfer_partial bsd_config (pid_to_ptid 7) refusing_tracee (fun _ => 0)
          target_object.TARGET_OBJECT_MEMORY (some (fun _ => 0)) none 4099 16).status
        = TARGET_XFER_EOF ∧
      ( xfer_partial bsd_config (pid_to_ptid 7) refusing_tracee (fun _ => 0)
          target_object.TARGET_OBJECT_MEMORY (some (fun _ => 0)) none 4099 16).xfered_len
        = none ∧
      ( xfer_partial bsd_config (pid_to_ptid 7) refusing_tracee (fun _ => 0)
          target_object.TARGET_OBJECT_MEMORY (some (fun _ => 0)) none 4099 16).log
        = [KernelCall.ptrace_io (ptid_get_pid (pid_to_ptid 7))
            (if (none : Option (Nat → Nat)).isSome then PiodOp.PIOD_WRITE_I
             else PiodOp.PIOD_READ_D)
            (4099 % ULONGEST_MOD) (16 % ULONGEST_MOD)] ∧
      ( xfer_partial bsd_config (pid_to_ptid 7) refusing_tracee (fun _ => 0)
          target_object.TARGET_OBJECT_MEMORY (some (fun _ => 0)) none 4099 16).mem
        = refusing_tracee.mem) :=
  ⟨(xfer_partial_bulk_rejected bsd_config (pid_to_ptid 7) counting_tracee (fun _ => 0)
      (some (fun _ => 0)) none 4099 16 EINVAL rfl rfl).1 rfl,
   (xfer_partial_bulk_rejected bsd_config (pid_to_ptid 7) refusing_tracee (fun _ => 0)
      (some (fun _ => 0)) none 4099 16 5 rfl rfl).2 (by decide)⟩

/-- The fallback at work: the bulk request is answered with `EINVAL`, the word
at 4096 is read and the 5 bytes from 4099 to the end of that word are
transferred. -/
theorem bulk_einval_fallback_example :
    ( xfer_partial bsd_config (pid_to_ptid 7) counting_tracee (fun _ => 0)
        target_object.TARGET_OBJECT_MEMORY (some (fun _ => 0)) none 4099 16).log
      = [KernelCall.ptrace_io 7 PiodOp.PIOD_READ_D 4099 16,
         KernelCall.ptrace PtraceRequest.PT_READ_I 7 4096 0] ∧
    ( xfer_partial bsd_config (pid_to_ptid 7) counting_tracee (fun _ => 0)
        target_object.TARGET_OBJECT_MEMORY (some (fun _ => 0)) none 4099 16).status
      = target_xfer_status.TARGET_XFER_OK ∧
    ( xfer_partial bsd_config (pid_to_ptid 7) counting_tracee (fun _ => 0)
        target_object.TARGET_OBJECT_MEMORY (some (fun _ => 0)) none 4099 16).xfered_len
      = some 5 := by
  decide

end GdbNat
